import Mathlib

/-!
Verification development for the SHOE_STRING_CLI repository.

The development shallowly embeds two groups of code:

* The module-metadata merge engine (`merge_module_metadata` and its data
  model).  The repository ships only the tests of this engine
  (`tests/test_performance_registry.py`); the engine itself
  (`src/host/registry.py`, `src/host/discovery.py`) is absent from the
  source tree, so the definitions below are modelled from the
  specification text, as marked in their doc comments.

* The navigation manager (`src/host/navigation.py`) and the ANSI
  formatting helpers (`src/host/formatting.py`), embedded directly from
  the Python source.

Machine-level details (handlers, state values, keybinding descriptors)
are opaque to the merge engine, so they are represented by `Nat` tokens.
-/

namespace ShoeString

/-- Code-point comparison of characters, as Python compares characters of
a string (by Unicode code point). -/
def charLt (a b : Char) : Bool := decide (a.toNat < b.toNat)

/-- Strict lexicographic order on character lists: the order Python uses
for strings, used by the merge model for deterministic tie-breaks. -/
def ltChars : List Char → List Char → Bool
  | [], [] => false
  | [], _ :: _ => true
  | _ :: _, [] => false
  | a :: as, b :: bs =>
    if charLt a b then true
    else if charLt b a then false
    else ltChars as bs

/-- Strict lexicographic order on strings (by their character data). -/
def sLt (a b : String) : Bool := ltChars a.data b.data

/-- Non-strict lexicographic order on strings, as a proposition, used to
sort identifier lists canonically. -/
def sLe (a b : String) : Prop := ltChars b.data a.data = false

instance : DecidableRel sLe := fun a b =>
  inferInstanceAs (Decidable (ltChars b.data a.data = false))

/-- The smaller of two strings in the lexicographic order. -/
def minS (a b : String) : String := if ltChars b.data a.data then b else a

/-- Modelled from the spec: an immutable parsed semantic version, a
triple of non-negative integers (§3 "Version"). -/
structure Version where
  major : Nat
  minor : Nat
  patch : Nat
deriving DecidableEq

/-- Strict comparison of versions by lexicographic (major, minor, patch)
order (§4.1). -/
def verLt (a b : Version) : Bool :=
  if a.major < b.major then true
  else if b.major < a.major then false
  else if a.minor < b.minor then true
  else if b.minor < a.minor then false
  else decide (a.patch < b.patch)

/-- Non-strict comparison of versions. -/
def verLe (a b : Version) : Bool := !verLt b a

/-- The larger of two versions. -/
def verMax (a b : Version) : Version := if verLt a b then b else a

/-- Parse result of one dot-separated group: the groups of characters
between the dots of a version string. -/
def splitDots : List Char → List (List Char)
  | [] => [[]]
  | c :: rest =>
    if c = '.' then [] :: splitDots rest
    else
      match splitDots rest with
      | [] => [[c]]
      | g :: gs => (c :: g) :: gs

/-- Decimal value of a non-empty, all-digit character group; `none` for
malformed groups. -/
def digitsToNat : List Char → Option Nat
  | [] => none
  | l => l.foldl (fun acc c =>
      match acc with
      | none => none
      | some n => if c.isDigit then some (n * 10 + (c.toNat - 48)) else none)
      (some 0)

/-- Modelled from the spec: `parse(s) -> Version`, failing when `s` does
not match `int.int.int` (§4.1); the failure is the model of
`VersionParseError`.  The engine itself is absent from the source tree. -/
def parseVersion (s : String) : Option Version :=
  match splitDots s.data with
  | [a, b, c] =>
    match digitsToNat a, digitsToNat b, digitsToNat c with
    | some x, some y, some z => some ⟨x, y, z⟩
    | _, _, _ => none
  | _ => none

/-- Modelled from the spec: a route declaration `{id, title, slot}`
contributed by a module (§3 "Module Contribution", §6). -/
structure RouteDecl where
  id : String
  title : String
  slot : String
deriving DecidableEq

/-- Modelled from the spec: the dynamic payload a module produces at
merge time (§3 "Module Contribution").  Handlers, state values and
keybinding descriptors are opaque to the engine and represented by `Nat`
tokens. -/
structure Contribution where
  routes : List RouteDecl
  commands : List (String × Nat)
  reducers : List (String × Nat)
  initial_state : List (String × Nat)
  keybindings : List Nat
deriving DecidableEq

/-- Modelled from the spec: the observable outcome of invoking a
module's build entry point once (§4.5(b), §6, §7): a well-shaped
payload, a raised exception (`BuildInvocationError`), or a payload with
a missing key (`ContributionShapeError`). -/
inductive BuildOutcome where
  | ok (c : Contribution)
  | raises
  | badShape
deriving DecidableEq

/-- Modelled from the spec: a module together with its manifest fields
(§3 "Module Manifest", §6): identifier, declared version string,
declared contract-version string, advisory declared route ids, and its
build entry point. -/
structure Module where
  module_id : String
  semver : String
  contract_semver : String
  declared_routes : List String
  build : BuildOutcome
deriving DecidableEq

/-- Modelled from the spec: the four module-scoped failure kinds of §7. -/
inductive RejectReason where
  | versionParseError
  | compatibilityError
  | contributionShapeError
  | buildInvocationError
deriving DecidableEq

/-- An admitted module: its identifier, parsed declared version, and
contribution, as used by the resolver and aggregator (§4.3, §4.4). -/
structure Adm where
  module_id : String
  ver : Version
  contrib : Contribution
deriving DecidableEq

/-- Modelled from the spec: the compatibility gate plus the build step
for one module (§4.2, §4.5(a)-(b), §7): parse both version strings,
check the contract version against the host's closed supported interval
`[lo, hi]`, and invoke the build entry point; each failure rejects only
this module with its reason. -/
def admitModule (lo hi : Version) (m : Module) : Except RejectReason Adm :=
  match parseVersion m.semver with
  | none => .error .versionParseError
  | some v =>
    match parseVersion m.contract_semver with
    | none => .error .versionParseError
    | some cv =>
      if verLe lo cv && verLe cv hi then
        match m.build with
        | .ok c => .ok ⟨m.module_id, v, c⟩
        | .raises => .error .buildInvocationError
        | .badShape => .error .contributionShapeError
      else .error .compatibilityError

/-- The admitted modules of an input sequence, in admission order. -/
def admittedList (lo hi : Version) (mods : List Module) : List Adm :=
  mods.filterMap (fun m => (admitModule lo hi m).toOption)

/-- The rejected modules of an input sequence with their reasons, the
diagnostics content of §4.2 and §7. -/
def rejectedList (lo hi : Version) (mods : List Module) :
    List (String × RejectReason) :=
  mods.filterMap (fun m =>
    match admitModule lo hi m with
    | .error r => some (m.module_id, r)
    | .ok _ => none)

/-- The keyed entries a contribution offers in one namespace, selected
by an accessor `get`; the candidate tuples of the conflict resolver
(§4.3) carry the module identifier and parsed version. -/
def cands {β : Type} (get : Contribution → List (String × β))
    (adm : List Adm) (k : String) : List (String × Version × β) :=
  adm.filterMap (fun a =>
    ((get a.contrib).find? (fun p => decide (p.1 = k))).map
      (fun p => (a.module_id, a.ver, p.2)))

/-- The maximum declared version among candidate tuples (§4.3 step 1). -/
def bestVer {β : Type} : List (String × Version × β) → Option Version
  | [] => none
  | c :: rest =>
    match bestVer rest with
    | none => some c.2.1
    | some v => some (verMax c.2.1 v)

/-- The lexicographically smallest module identifier among candidate
tuples declaring version `v` (§4.3 step 3). -/
def bestId {β : Type} (v : Version) :
    List (String × Version × β) → Option String
  | [] => none
  | c :: rest =>
    let r := bestId v rest
    if c.2.1 = v then
      some (match r with | none => c.1 | some i => minS c.1 i)
    else r

/-- Modelled from the spec: the conflict resolver for one identifier
(§4.3): among the candidate tuples select the maximum version, break
ties by ascending module identifier, and return that module's tuple. -/
def winner {β : Type} (get : Contribution → List (String × β))
    (adm : List Adm) (k : String) : Option (String × Version × β) :=
  (bestVer (cands get adm k)).bind (fun v =>
    (bestId v (cands get adm k)).bind (fun i =>
      (cands get adm k).find? (fun c => decide (c.1 = i))))

/-- All identifiers present in one namespace across the admitted
contributions, deduplicated and sorted so that the resolved mapping is
canonical and independent of input order (§4.3, §8). -/
def keysOf {β : Type} (get : Contribution → List (String × β))
    (adm : List Adm) : List String :=
  List.insertionSort sLe
    ((adm.map (fun a => (get a.contrib).map (fun p => p.1))).flatten).dedup

/-- Modelled from the spec: the resolved mapping of one namespace
(§4.3-§4.4): one entry per distinct identifier, carrying the winning
module's identifier and its contributed value. -/
def resolve {β : Type} (get : Contribution → List (String × β))
    (adm : List Adm) : List (String × String × β) :=
  (keysOf get adm).filterMap (fun k =>
    (winner get adm k).map (fun w => (k, w.1, w.2.2)))

/-- The route entries of a contribution keyed by route id; a route id
declared twice inside one contribution counts by its first declaration. -/
def routesGet (c : Contribution) : List (String × RouteDecl) :=
  c.routes.map (fun r => (r.id, r))

/-- Modelled from the spec: the engine's output value (§3 "Merged
Metadata"): route selections (route id ↦ winning module id and route
descriptor), resolved commands and reducers (name ↦ owning module id
and handler), shallow-merged initial state, and keybindings concatenated
in admission order. -/
structure MergedMetadata where
  route_selections : List (String × String × RouteDecl)
  commands : List (String × String × Nat)
  reducers : List (String × String × Nat)
  initial_state : List (String × Nat)
  keybindings : List Nat
deriving DecidableEq

/-- Modelled from the spec: the diagnostics record returned alongside
the merged metadata; the model records the rejected modules with their
reasons (§4.2, §6, §7). -/
structure Diagnostics where
  rejected : List (String × RejectReason)
deriving DecidableEq

/-- Modelled from the spec: the single fatal condition, a
programming-contract violation by the caller (§7). -/
inductive MergeError where
  | duplicateModuleId
deriving DecidableEq

/-- Modelled from the spec: the aggregator (§4.4), folding the admitted
contributions into one `MergedMetadata` using the conflict resolver for
every keyed namespace and plain concatenation for keybindings. -/
def mergeCore (adm : List Adm) : MergedMetadata :=
  { route_selections := resolve routesGet adm
    commands := resolve (fun c => c.commands) adm
    reducers := resolve (fun c => c.reducers) adm
    initial_state := (resolve (fun c => c.initial_state) adm).map
      (fun e => (e.1, e.2.2))
    keybindings := adm.flatMap (fun a => a.contrib.keybindings) }

/-- Modelled from the spec: the public entry point
`merge_module_metadata` (§4.5, §7): fail outright on duplicate module
identifiers, otherwise gate, build, resolve and aggregate, returning the
merged metadata together with diagnostics.  The engine's source file is
absent from the repository; this definition follows §4-§7 of the spec. -/
def merge_module_metadata (lo hi : Version) (mods : List Module) :
    Except MergeError (MergedMetadata × Diagnostics) :=
  if (mods.map (fun m => m.module_id)).Nodup then
    .ok (mergeCore (admittedList lo hi mods), ⟨rejectedList lo hi mods⟩)
  else .error .duplicateModuleId

/-- Modelled from the spec: the process-wide version cache, keyed by the
original version string (§2, §4.1); append-only for the process
lifetime. -/
abbrev VCache := List (String × Version)

/-- A cache is coherent when every stored entry is the parse of its key;
this is the invariant the read-through discipline maintains (§4.1). -/
def cacheOk (c : VCache) : Prop :=
  ∀ p ∈ c, parseVersion p.1 = some p.2

/-- Cache lookup by exact version string. -/
def cacheFind (c : VCache) (s : String) : Option Version :=
  (c.find? (fun p => decide (p.1 = s))).map (fun p => p.2)

/-- Modelled from the spec: the read-through parse (§4.1): on a hit the
stored Version is returned without re-deriving it; on a miss the string
is parsed, stored, and returned. -/
def parseCached (c : VCache) (s : String) : Option Version × VCache :=
  match cacheFind c s with
  | some v => (some v, c)
  | none =>
    match parseVersion s with
    | some v => (some v, (s, v) :: c)
    | none => (none, c)

/-- The gate-and-build step of one module under the cached parse,
threading the cache through both version parses. -/
def admitModuleC (lo hi : Version) (c : VCache) (m : Module) :
    Except RejectReason Adm × VCache :=
  match parseCached c m.semver with
  | (none, c1) => (.error .versionParseError, c1)
  | (some v, c1) =>
    match parseCached c1 m.contract_semver with
    | (none, c2) => (.error .versionParseError, c2)
    | (some cv, c2) =>
      if verLe lo cv && verLe cv hi then
        match m.build with
        | .ok cb => (.ok ⟨m.module_id, v, cb⟩, c2)
        | .raises => (.error .buildInvocationError, c2)
        | .badShape => (.error .contributionShapeError, c2)
      else (.error .compatibilityError, c2)

/-- The gate run over the whole input under the cached parse, returning
the admitted modules, the rejection diagnostics, and the final cache. -/
def scanModulesC (lo hi : Version) (c : VCache) :
    List Module → List Adm × List (String × RejectReason) × VCache
  | [] => ([], [], c)
  | m :: rest =>
    let next := scanModulesC lo hi (admitModuleC lo hi c m).2 rest
    match (admitModuleC lo hi c m).1 with
    | .ok a => (a :: next.1, next.2.1, next.2.2)
    | .error r => (next.1, (m.module_id, r) :: next.2.1, next.2.2)

/-- Modelled from the spec: the entry point as executed against the
process-wide cache (§4.5(e)): same steps as `merge_module_metadata`,
with every version parse going through the read-through cache, which is
returned alongside the result. -/
def mergeCached (lo hi : Version) (c : VCache) (mods : List Module) :
    Except MergeError (MergedMetadata × Diagnostics) × VCache :=
  if (mods.map (fun m => m.module_id)).Nodup then
    (.ok (mergeCore (scanModulesC lo hi c mods).1,
      ⟨(scanModulesC lo hi c mods).2.1⟩), (scanModulesC lo hi c mods).2.2)
  else (.error .duplicateModuleId, c)

/-- A navigation route of `src/host/navigation.py` (class `Route`):
its id, title, and optional handler.  The handler is an opaque callback;
it is represented by a `Nat` token so that an invocation can be
observed.  The `metadata` dictionary plays no role in navigation and is
omitted. -/
structure NavRoute where
  route_id : String
  title : String
  handler : Option Nat
deriving DecidableEq

/-- The state of `Navigator` (`src/host/navigation.py`): the registered
routes (an insertion-ordered dictionary, embedded as an association
list), the navigation history, and the current route id. -/
structure Navigator where
  routes : List (String × NavRoute)
  history : List String
  current : Option String
deriving DecidableEq

/-- `Navigator.navigate_to` (`src/host/navigation.py` lines 118-145):
look the route up; on a miss return `False` without touching any state;
on a hit optionally push the previous current route, set the new current
route, and invoke the route's handler when one is set.  The result is
the new state, the returned boolean, and the tokens of the handlers the
call invoked. -/
def Navigator.navigate_to (nav : Navigator) (route_id : String)
    (push_history : Bool) : Navigator × Bool × List Nat :=
  match nav.routes.find? (fun p => decide (p.1 = route_id)) with
  | none => (nav, false, [])
  | some pr =>
    let hist :=
      match push_history, nav.current with
      | true, some c => nav.history ++ [c]
      | _, _ => nav.history
    ({ nav with history := hist, current := some route_id }, true,
      match pr.2.handler with
      | some h => [h]
      | none => [])

/-- `Navigator.go_back` (`src/host/navigation.py` lines 147-159): on an
empty history return `False`; otherwise pop the last history entry and
navigate to it without pushing history. -/
def Navigator.go_back (nav : Navigator) : Navigator × Bool × List Nat :=
  match nav.history.getLast? with
  | none => (nav, false, [])
  | some prev =>
    Navigator.navigate_to { nav with history := nav.history.dropLast }
      prev false

/-- The environment facts `supports_color` reads
(`src/host/formatting.py` lines 29-48): the `NO_COLOR` variable, whether
stdout is a TTY, and whether `TERM` is `dumb`. -/
structure Env where
  no_color : Bool
  isatty : Bool
  term_dumb : Bool
deriving DecidableEq

/-- `supports_color` (`src/host/formatting.py` lines 29-48). -/
def supports_color (env : Env) : Bool :=
  !env.no_color && env.isatty && !env.term_dumb

/-- The escape character `\033` used by the formatting helpers. -/
def escChar : Char := Char.ofNat 27

/-- `_colorize` (`src/host/formatting.py` lines 51-68) on character
lists: wrap the text in `\033[{code}m ... \033[0m` when colors are
supported, otherwise return it unchanged. -/
def colorize (env : Env) (text : List Char) (code : List Char) :
    List Char :=
  if supports_color env then
    escChar :: '[' :: code ++ 'm' :: text ++
      (escChar :: '[' :: '0' :: 'm' :: [])
  else text

/-- `bold` (`src/host/formatting.py` lines 71-84) on character lists. -/
def boldChars (env : Env) (text : List Char) : List Char :=
  colorize env text ('1' :: [])

/-- `bold` on strings. -/
def bold (env : Env) (text : String) : String :=
  ⟨boldChars env text.data⟩

/-- The character class `[0-9;]` of the `strip_ansi` regular expression
(`src/host/formatting.py` line 219). -/
def csiBody (c : Char) : Bool := c.isDigit || decide (c = ';')

/-- The tail of one attempted match of the `strip_ansi` regular
expression after `\033[` and the optional `?`: a greedy run of `[0-9;]`
followed by one ASCII letter; on success the remainder after the match
is returned. -/
def matchTail (l : List Char) : Option (List Char) :=
  match l.dropWhile csiBody with
  | c :: r4 => if c.isAlpha then some r4 else none
  | [] => none

/-- One attempted match of the `strip_ansi` regular expression
`\033\[[0-9;]*[a-zA-Z]|\033\[[\?]?[0-9;]*[a-zA-Z]`
(`src/host/formatting.py` line 219) at the head of the input: `\033`,
`[`, an optional `?`, a run of `[0-9;]`, and one ASCII letter; on
success the remainder after the match is returned. -/
def matchAnsi : List Char → Option (List Char)
  | e :: b :: q :: rest =>
    if e = escChar ∧ b = '[' then
      if q = '?' then matchTail rest else matchTail (q :: rest)
    else none
  | e :: b :: [] =>
    if e = escChar ∧ b = '[' then matchTail [] else none
  | _ => none

/-- Whether the text contains a match of the `strip_ansi` regular
expression at any position. -/
def containsAnsi : List Char → Bool
  | [] => false
  | c :: rest => (matchAnsi (c :: rest)).isSome || containsAnsi rest

/-- `strip_ansi` (`src/host/formatting.py` lines 201-220) on character
lists: `re.sub` of the pattern with the empty string, scanning left to
right, removing each leftmost match and continuing after it. -/
def stripAnsi (l : List Char) : List Char :=
  match l with
  | [] => []
  | c :: rest =>
    match h : matchAnsi (c :: rest) with
    | some r => stripAnsi r
    | none => c :: stripAnsi rest
termination_by l.length
decreasing_by
  · have hmt : ∀ (x : List Char) (r' : List Char), matchTail x = some r' →
        r'.length < x.length := by
      intro x r' hx
      unfold matchTail at hx
      split at hx
      · next d r4 heq =>
        split at hx
        · injection hx with hx'
          subst hx'
          have h1 : (x.dropWhile csiBody).length = r4.length + 1 := by
            rw [heq]; rfl
          have h2 : (x.dropWhile csiBody).length ≤ x.length :=
            (List.dropWhile_suffix csiBody).length_le
          omega
        · exact absurd hx (by simp)
      · exact absurd hx (by simp)
    unfold matchAnsi at h
    split at h
    · rename_i x e b q rest2 heq
      split at h
      · split at h
        · have := hmt _ _ h
          have hlen := congrArg List.length heq
          simp only [List.length_cons] at hlen ⊢
          omega
        · have := hmt _ _ h
          have hlen := congrArg List.length heq
          simp only [List.length_cons] at hlen this ⊢
          omega
      · exact absurd h (by simp)
    · split at h
      · have hnone : matchTail [] = none := by rfl
        rw [hnone] at h
        exact absurd h (by simp)
      · exact absurd h (by simp)
    · exact absurd h (by simp)
  · simp only [List.length_cons]
    omega

/-- `strip_ansi` on strings. -/
def strip_ansi (s : String) : String := ⟨stripAnsi s.data⟩

/-- Modelled from the spec: the 100-module input of the performance
scenario of §8, written out literally: module `mod{i}` declares semver
`1.0.0` and the one distinct route id `route{i}`. -/
def perfMods : List Module :=
  ⟨"mod0", "1.0.0", "1.0.0", ["route0"], .ok
    ⟨⟨"route0", "Test", "main"⟩ :: [], [], [], [], []⟩⟩ ::
  ⟨"mod1", "1.0.0", "1.0.0", ["route1"], .ok
    ⟨⟨"route1", "Test", "main"⟩ :: [], [], [], [], []⟩⟩ ::
  ⟨"mod2", "1.0.0", "1.0.0", ["route2"], .ok
    ⟨⟨"route2", "Test", "main"⟩ :: [], [], [], [], []⟩⟩ ::
  ⟨"mod3", "1.0.0", "1.0.0", ["route3"], .ok
    ⟨⟨"route3", "Test", "main"⟩ :: [], [], [], [], []⟩⟩ ::
  ⟨"mod4", "1.0.0", "1.0.0", ["route4"], .ok
    ⟨⟨"route4", "Test", "main"⟩ :: [], [], [], [], []⟩⟩ ::
  ⟨"mod5", "1.0.0", "1.0.0", ["route5"], .ok
    ⟨⟨"route5", "Test", "main"⟩ :: [], [], [], [], []⟩⟩ ::
  ⟨"mod6", "1.0.0", "1.0.0", ["route6"], .ok
    ⟨⟨"route6", "Test", "main"⟩ :: [], [], [], [], []⟩⟩ ::
  ⟨"mod7", "1.0.0", "1.0.0", ["route7"], .ok
    ⟨⟨"route7", "Test", "main"⟩ :: [], [], [], [], []⟩⟩ ::
  ⟨"mod8", "1.0.0", "1.0.0", ["route8"], .ok
    ⟨⟨"route8", "Test", "main"⟩ :: [], [], [], [], []⟩⟩ ::
  ⟨"mod9", "1.0.0", "1.0.0", ["route9"], .ok
    ⟨⟨"route9", "Test", "main"⟩ :: [], [], [], [], []⟩⟩ ::
  ⟨"mod10", "1.0.0", "1.0.0", ["route10"], .ok
    ⟨⟨"route10", "Test", "main"⟩ :: [], [], [], [], []⟩⟩ ::
  ⟨"mod11", "1.0.0", "1.0.0", ["route11"], .ok
    ⟨⟨"route11", "Test", "main"⟩ :: [], [], [], [], []⟩⟩ ::
  ⟨"mod12", "1.0.0", "1.0.0", ["route12"], .ok
    ⟨⟨"route12", "Test", "main"⟩ :: [], [], [], [], []⟩⟩ ::
  ⟨"mod13", "1.0.0", "1.0.0", ["route13"], .ok
    ⟨⟨"route13", "Test", "main"⟩ :: [], [], [], [], []⟩⟩ ::
  ⟨"mod14", "1.0.0", "1.0.0", ["route14"], .ok
    ⟨⟨"route14", "Test", "main"⟩ :: [], [], [], [], []⟩⟩ ::
  ⟨"mod15", "1.0.0", "1.0.0", ["route15"], .ok
    ⟨⟨"route15", "Test", "main"⟩ :: [], [], [], [], []⟩⟩ ::
  ⟨"mod16", "1.0.0", "1.0.0", ["route16"], .ok
    ⟨⟨"route16", "Test", "main"⟩ :: [], [], [], [], []⟩⟩ ::
  ⟨"mod17", "1.0.0", "1.0.0", ["route17"], .ok
    ⟨⟨"route17", "Test", "main"⟩ :: [], [], [], [], []⟩⟩ ::
  ⟨"mod18", "1.0.0", "1.0.0", ["route18"], .ok
    ⟨⟨"route18", "Test", "main"⟩ :: [], [], [], [], []⟩⟩ ::
  ⟨"mod19", "1.0.0", "1.0.0", ["route19"], .ok
    ⟨⟨"route19", "Test", "main"⟩ :: [], [], [], [], []⟩⟩ ::
  ⟨"mod20", "1.0.0", "1.0.0", ["route20"], .ok
    ⟨⟨"route20", "Test", "main"⟩ :: [], [], [], [], []⟩⟩ ::
  ⟨"mod21", "1.0.0", "1.0.0", ["route21"], .ok
    ⟨⟨"route21", "Test", "main"⟩ :: [], [], [], [], []⟩⟩ ::
  ⟨"mod22", "1.0.0", "1.0.0", ["route22"], .ok
    ⟨⟨"route22", "Test", "main"⟩ :: [], [], [], [], []⟩⟩ ::
  ⟨"mod23", "1.0.0", "1.0.0", ["route23"], .ok
    ⟨⟨"route23", "Test", "main"⟩ :: [], [], [], [], []⟩⟩ ::
  ⟨"mod24", "1.0.0", "1.0.0", ["route24"], .ok
    ⟨⟨"route24", "Test", "main"⟩ :: [], [], [], [], []⟩⟩ ::
  ⟨"mod25", "1.0.0", "1.0.0", ["route25"], .ok
    ⟨⟨"route25", "Test", "main"⟩ :: [], [], [], [], []⟩⟩ ::
  ⟨"mod26", "1.0.0", "1.0.0", ["route26"], .ok
    ⟨⟨"route26", "Test", "main"⟩ :: [], [], [], [], []⟩⟩ ::
  ⟨"mod27", "1.0.0", "1.0.0", ["route27"], .ok
    ⟨⟨"route27", "Test", "main"⟩ :: [], [], [], [], []⟩⟩ ::
  ⟨"mod28", "1.0.0", "1.0.0", ["route28"], .ok
    ⟨⟨"route28", "Test", "main"⟩ :: [], [], [], [], []⟩⟩ ::
  ⟨"mod29", "1.0.0", "1.0.0", ["route29"], .ok
    ⟨⟨"route29", "Test", "main"⟩ :: [], [], [], [], []⟩⟩ ::
  ⟨"mod30", "1.0.0", "1.0.0", ["route30"], .ok
    ⟨⟨"route30", "Test", "main"⟩ :: [], [], [], [], []⟩⟩ ::
  ⟨"mod31", "1.0.0", "1.0.0", ["route31"], .ok
    ⟨⟨"route31", "Test", "main"⟩ :: [], [], [], [], []⟩⟩ ::
  ⟨"mod32", "1.0.0", "1.0.0", ["route32"], .ok
    ⟨⟨"route32", "Test", "main"⟩ :: [], [], [], [], []⟩⟩ ::
  ⟨"mod33", "1.0.0", "1.0.0", ["route33"], .ok
    ⟨⟨"route33", "Test", "main"⟩ :: [], [], [], [], []⟩⟩ ::
  ⟨"mod34", "1.0.0", "1.0.0", ["route34"], .ok
    ⟨⟨"route34", "Test", "main"⟩ :: [], [], [], [], []⟩⟩ ::
  ⟨"mod35", "1.0.0", "1.0.0", ["route35"], .ok
    ⟨⟨"route35", "Test", "main"⟩ :: [], [], [], [], []⟩⟩ ::
  ⟨"mod36", "1.0.0", "1.0.0", ["route36"], .ok
    ⟨⟨"route36", "Test", "main"⟩ :: [], [], [], [], []⟩⟩ ::
  ⟨"mod37", "1.0.0", "1.0.0", ["route37"], .ok
    ⟨⟨"route37", "Test", "main"⟩ :: [], [], [], [], []⟩⟩ ::
  ⟨"mod38", "1.0.0", "1.0.0", ["route38"], .ok
    ⟨⟨"route38", "Test", "main"⟩ :: [], [], [], [], []⟩⟩ ::
  ⟨"mod39", "1.0.0", "1.0.0", ["route39"], .ok
    ⟨⟨"route39", "Test", "main"⟩ :: [], [], [], [], []⟩⟩ ::
  ⟨"mod40", "1.0.0", "1.0.0", ["route40"], .ok
    ⟨⟨"route40", "Test", "main"⟩ :: [], [], [], [], []⟩⟩ ::
  ⟨"mod41", "1.0.0", "1.0.0", ["route41"], .ok
    ⟨⟨"route41", "Test", "main"⟩ :: [], [], [], [], []⟩⟩ ::
  ⟨"mod42", "1.0.0", "1.0.0", ["route42"], .ok
    ⟨⟨"route42", "Test", "main"⟩ :: [], [], [], [], []⟩⟩ ::
  ⟨"mod43", "1.0.0", "1.0.0", ["route43"], .ok
    ⟨⟨"route43", "Test", "main"⟩ :: [], [], [], [], []⟩⟩ ::
  ⟨"mod44", "1.0.0", "1.0.0", ["route44"], .ok
    ⟨⟨"route44", "Test", "main"⟩ :: [], [], [], [], []⟩⟩ ::
  ⟨"mod45", "1.0.0", "1.0.0", ["route45"], .ok
    ⟨⟨"route45", "Test", "main"⟩ :: [], [], [], [], []⟩⟩ ::
  ⟨"mod46", "1.0.0", "1.0.0", ["route46"], .ok
    ⟨⟨"route46", "Test", "main"⟩ :: [], [], [], [], []⟩⟩ ::
  ⟨"mod47", "1.0.0", "1.0.0", ["route47"], .ok
    ⟨⟨"route47", "Test", "main"⟩ :: [], [], [], [], []⟩⟩ ::
  ⟨"mod48", "1.0.0", "1.0.0", ["route48"], .ok
    ⟨⟨"route48", "Test", "main"⟩ :: [], [], [], [], []⟩⟩ ::
  ⟨"mod49", "1.0.0", "1.0.0", ["route49"], .ok
    ⟨⟨"route49", "Test", "main"⟩ :: [], [], [], [], []⟩⟩ ::
  ⟨"mod50", "1.0.0", "1.0.0", ["route50"], .ok
    ⟨⟨"route50", "Test", "main"⟩ :: [], [], [], [], []⟩⟩ ::
  ⟨"mod51", "1.0.0", "1.0.0", ["route51"], .ok
    ⟨⟨"route51", "Test", "main"⟩ :: [], [], [], [], []⟩⟩ ::
  ⟨"mod52", "1.0.0", "1.0.0", ["route52"], .ok
    ⟨⟨"route52", "Test", "main"⟩ :: [], [], [], [], []⟩⟩ ::
  ⟨"mod53", "1.0.0", "1.0.0", ["route53"], .ok
    ⟨⟨"route53", "Test", "main"⟩ :: [], [], [], [], []⟩⟩ ::
  ⟨"mod54", "1.0.0", "1.0.0", ["route54"], .ok
    ⟨⟨"route54", "Test", "main"⟩ :: [], [], [], [], []⟩⟩ ::
  ⟨"mod55", "1.0.0", "1.0.0", ["route55"], .ok
    ⟨⟨"route55", "Test", "main"⟩ :: [], [], [], [], []⟩⟩ ::
  ⟨"mod56", "1.0.0", "1.0.0", ["route56"], .ok
    ⟨⟨"route56", "Test", "main"⟩ :: [], [], [], [], []⟩⟩ ::
  ⟨"mod57", "1.0.0", "1.0.0", ["route57"], .ok
    ⟨⟨"route57", "Test", "main"⟩ :: [], [], [], [], []⟩⟩ ::
  ⟨"mod58", "1.0.0", "1.0.0", ["route58"], .ok
    ⟨⟨"route58", "Test", "main"⟩ :: [], [], [], [], []⟩⟩ ::
  ⟨"mod59", "1.0.0", "1.0.0", ["route59"], .ok
    ⟨⟨"route59", "Test", "main"⟩ :: [], [], [], [], []⟩⟩ ::
  ⟨"mod60", "1.0.0", "1.0.0", ["route60"], .ok
    ⟨⟨"route60", "Test", "main"⟩ :: [], [], [], [], []⟩⟩ ::
  ⟨"mod61", "1.0.0", "1.0.0", ["route61"], .ok
    ⟨⟨"route61", "Test", "main"⟩ :: [], [], [], [], []⟩⟩ ::
  ⟨"mod62", "1.0.0", "1.0.0", ["route62"], .ok
    ⟨⟨"route62", "Test", "main"⟩ :: [], [], [], [], []⟩⟩ ::
  ⟨"mod63", "1.0.0", "1.0.0", ["route63"], .ok
    ⟨⟨"route63", "Test", "main"⟩ :: [], [], [], [], []⟩⟩ ::
  ⟨"mod64", "1.0.0", "1.0.0", ["route64"], .ok
    ⟨⟨"route64", "Test", "main"⟩ :: [], [], [], [], []⟩⟩ ::
  ⟨"mod65", "1.0.0", "1.0.0", ["route65"], .ok
    ⟨⟨"route65", "Test", "main"⟩ :: [], [], [], [], []⟩⟩ ::
  ⟨"mod66", "1.0.0", "1.0.0", ["route66"], .ok
    ⟨⟨"route66", "Test", "main"⟩ :: [], [], [], [], []⟩⟩ ::
  ⟨"mod67", "1.0.0", "1.0.0", ["route67"], .ok
    ⟨⟨"route67", "Test", "main"⟩ :: [], [], [], [], []⟩⟩ ::
  ⟨"mod68", "1.0.0", "1.0.0", ["route68"], .ok
    ⟨⟨"route68", "Test", "main"⟩ :: [], [], [], [], []⟩⟩ ::
  ⟨"mod69", "1.0.0", "1.0.0", ["route69"], .ok
    ⟨⟨"route69", "Test", "main"⟩ :: [], [], [], [], []⟩⟩ ::
  ⟨"mod70", "1.0.0", "1.0.0", ["route70"], .ok
    ⟨⟨"route70", "Test", "main"⟩ :: [], [], [], [], []⟩⟩ ::
  ⟨"mod71", "1.0.0", "1.0.0", ["route71"], .ok
    ⟨⟨"route71", "Test", "main"⟩ :: [], [], [], [], []⟩⟩ ::
  ⟨"mod72", "1.0.0", "1.0.0", ["route72"], .ok
    ⟨⟨"route72", "Test", "main"⟩ :: [], [], [], [], []⟩⟩ ::
  ⟨"mod73", "1.0.0", "1.0.0", ["route73"], .ok
    ⟨⟨"route73", "Test", "main"⟩ :: [], [], [], [], []⟩⟩ ::
  ⟨"mod74", "1.0.0", "1.0.0", ["route74"], .ok
    ⟨⟨"route74", "Test", "main"⟩ :: [], [], [], [], []⟩⟩ ::
  ⟨"mod75", "1.0.0", "1.0.0", ["route75"], .ok
    ⟨⟨"route75", "Test", "main"⟩ :: [], [], [], [], []⟩⟩ ::
  ⟨"mod76", "1.0.0", "1.0.0", ["route76"], .ok
    ⟨⟨"route76", "Test", "main"⟩ :: [], [], [], [], []⟩⟩ ::
  ⟨"mod77", "1.0.0", "1.0.0", ["route77"], .ok
    ⟨⟨"route77", "Test", "main"⟩ :: [], [], [], [], []⟩⟩ ::
  ⟨"mod78", "1.0.0", "1.0.0", ["route78"], .ok
    ⟨⟨"route78", "Test", "main"⟩ :: [], [], [], [], []⟩⟩ ::
  ⟨"mod79", "1.0.0", "1.0.0", ["route79"], .ok
    ⟨⟨"route79", "Test", "main"⟩ :: [], [], [], [], []⟩⟩ ::
  ⟨"mod80", "1.0.0", "1.0.0", ["route80"], .ok
    ⟨⟨"route80", "Test", "main"⟩ :: [], [], [], [], []⟩⟩ ::
  ⟨"mod81", "1.0.0", "1.0.0", ["route81"], .ok
    ⟨⟨"route81", "Test", "main"⟩ :: [], [], [], [], []⟩⟩ ::
  ⟨"mod82", "1.0.0", "1.0.0", ["route82"], .ok
    ⟨⟨"route82", "Test", "main"⟩ :: [], [], [], [], []⟩⟩ ::
  ⟨"mod83", "1.0.0", "1.0.0", ["route83"], .ok
    ⟨⟨"route83", "Test", "main"⟩ :: [], [], [], [], []⟩⟩ ::
  ⟨"mod84", "1.0.0", "1.0.0", ["route84"], .ok
    ⟨⟨"route84", "Test", "main"⟩ :: [], [], [], [], []⟩⟩ ::
  ⟨"mod85", "1.0.0", "1.0.0", ["route85"], .ok
    ⟨⟨"route85", "Test", "main"⟩ :: [], [], [], [], []⟩⟩ ::
  ⟨"mod86", "1.0.0", "1.0.0", ["route86"], .ok
    ⟨⟨"route86", "Test", "main"⟩ :: [], [], [], [], []⟩⟩ ::
  ⟨"mod87", "1.0.0", "1.0.0", ["route87"], .ok
    ⟨⟨"route87", "Test", "main"⟩ :: [], [], [], [], []⟩⟩ ::
  ⟨"mod88", "1.0.0", "1.0.0", ["route88"], .ok
    ⟨⟨"route88", "Test", "main"⟩ :: [], [], [], [], []⟩⟩ ::
  ⟨"mod89", "1.0.0", "1.0.0", ["route89"], .ok
    ⟨⟨"route89", "Test", "main"⟩ :: [], [], [], [], []⟩⟩ ::
  ⟨"mod90", "1.0.0", "1.0.0", ["route90"], .ok
    ⟨⟨"route90", "Test", "main"⟩ :: [], [], [], [], []⟩⟩ ::
  ⟨"mod91", "1.0.0", "1.0.0", ["route91"], .ok
    ⟨⟨"route91", "Test", "main"⟩ :: [], [], [], [], []⟩⟩ ::
  ⟨"mod92", "1.0.0", "1.0.0", ["route92"], .ok
    ⟨⟨"route92", "Test", "main"⟩ :: [], [], [], [], []⟩⟩ ::
  ⟨"mod93", "1.0.0", "1.0.0", ["route93"], .ok
    ⟨⟨"route93", "Test", "main"⟩ :: [], [], [], [], []⟩⟩ ::
  ⟨"mod94", "1.0.0", "1.0.0", ["route94"], .ok
    ⟨⟨"route94", "Test", "main"⟩ :: [], [], [], [], []⟩⟩ ::
  ⟨"mod95", "1.0.0", "1.0.0", ["route95"], .ok
    ⟨⟨"route95", "Test", "main"⟩ :: [], [], [], [], []⟩⟩ ::
  ⟨"mod96", "1.0.0", "1.0.0", ["route96"], .ok
    ⟨⟨"route96", "Test", "main"⟩ :: [], [], [], [], []⟩⟩ ::
  ⟨"mod97", "1.0.0", "1.0.0", ["route97"], .ok
    ⟨⟨"route97", "Test", "main"⟩ :: [], [], [], [], []⟩⟩ ::
  ⟨"mod98", "1.0.0", "1.0.0", ["route98"], .ok
    ⟨⟨"route98", "Test", "main"⟩ :: [], [], [], [], []⟩⟩ ::
  ⟨"mod99", "1.0.0", "1.0.0", ["route99"], .ok
    ⟨⟨"route99", "Test", "main"⟩ :: [], [], [], [], []⟩⟩ ::
  []

/-- The admitted modules the gate produces for `perfMods`, written out
literally so the conflict resolver can be evaluated over it directly. -/
def perfAdm : List Adm :=
  ⟨"mod0", ⟨1, 0, 0⟩,
    ⟨⟨"route0", "Test", "main"⟩ :: [], [], [], [], []⟩⟩ ::
  ⟨"mod1", ⟨1, 0, 0⟩,
    ⟨⟨"route1", "Test", "main"⟩ :: [], [], [], [], []⟩⟩ ::
  ⟨"mod2", ⟨1, 0, 0⟩,
    ⟨⟨"route2", "Test", "main"⟩ :: [], [], [], [], []⟩⟩ ::
  ⟨"mod3", ⟨1, 0, 0⟩,
    ⟨⟨"route3", "Test", "main"⟩ :: [], [], [], [], []⟩⟩ ::
  ⟨"mod4", ⟨1, 0, 0⟩,
    ⟨⟨"route4", "Test", "main"⟩ :: [], [], [], [], []⟩⟩ ::
  ⟨"mod5", ⟨1, 0, 0⟩,
    ⟨⟨"route5", "Test", "main"⟩ :: [], [], [], [], []⟩⟩ ::
  ⟨"mod6", ⟨1, 0, 0⟩,
    ⟨⟨"route6", "Test", "main"⟩ :: [], [], [], [], []⟩⟩ ::
  ⟨"mod7", ⟨1, 0, 0⟩,
    ⟨⟨"route7", "Test", "main"⟩ :: [], [], [], [], []⟩⟩ ::
  ⟨"mod8", ⟨1, 0, 0⟩,
    ⟨⟨"route8", "Test", "main"⟩ :: [], [], [], [], []⟩⟩ ::
  ⟨"mod9", ⟨1, 0, 0⟩,
    ⟨⟨"route9", "Test", "main"⟩ :: [], [], [], [], []⟩⟩ ::
  ⟨"mod10", ⟨1, 0, 0⟩,
    ⟨⟨"route10", "Test", "main"⟩ :: [], [], [], [], []⟩⟩ ::
  ⟨"mod11", ⟨1, 0, 0⟩,
    ⟨⟨"route11", "Test", "main"⟩ :: [], [], [], [], []⟩⟩ ::
  ⟨"mod12", ⟨1, 0, 0⟩,
    ⟨⟨"route12", "Test", "main"⟩ :: [], [], [], [], []⟩⟩ ::
  ⟨"mod13", ⟨1, 0, 0⟩,
    ⟨⟨"route13", "Test", "main"⟩ :: [], [], [], [], []⟩⟩ ::
  ⟨"mod14", ⟨1, 0, 0⟩,
    ⟨⟨"route14", "Test", "main"⟩ :: [], [], [], [], []⟩⟩ ::
  ⟨"mod15", ⟨1, 0, 0⟩,
    ⟨⟨"route15", "Test", "main"⟩ :: [], [], [], [], []⟩⟩ ::
  ⟨"mod16", ⟨1, 0, 0⟩,
    ⟨⟨"route16", "Test", "main"⟩ :: [], [], [], [], []⟩⟩ ::
  ⟨"mod17", ⟨1, 0, 0⟩,
    ⟨⟨"route17", "Test", "main"⟩ :: [], [], [], [], []⟩⟩ ::
  ⟨"mod18", ⟨1, 0, 0⟩,
    ⟨⟨"route18", "Test", "main"⟩ :: [], [], [], [], []⟩⟩ ::
  ⟨"mod19", ⟨1, 0, 0⟩,
    ⟨⟨"route19", "Test", "main"⟩ :: [], [], [], [], []⟩⟩ ::
  ⟨"mod20", ⟨1, 0, 0⟩,
    ⟨⟨"route20", "Test", "main"⟩ :: [], [], [], [], []⟩⟩ ::
  ⟨"mod21", ⟨1, 0, 0⟩,
    ⟨⟨"route21", "Test", "main"⟩ :: [], [], [], [], []⟩⟩ ::
  ⟨"mod22", ⟨1, 0, 0⟩,
    ⟨⟨"route22", "Test", "main"⟩ :: [], [], [], [], []⟩⟩ ::
  ⟨"mod23", ⟨1, 0, 0⟩,
    ⟨⟨"route23", "Test", "main"⟩ :: [], [], [], [], []⟩⟩ ::
  ⟨"mod24", ⟨1, 0, 0⟩,
    ⟨⟨"route24", "Test", "main"⟩ :: [], [], [], [], []⟩⟩ ::
  ⟨"mod25", ⟨1, 0, 0⟩,
    ⟨⟨"route25", "Test", "main"⟩ :: [], [], [], [], []⟩⟩ ::
  ⟨"mod26", ⟨1, 0, 0⟩,
    ⟨⟨"route26", "Test", "main"⟩ :: [], [], [], [], []⟩⟩ ::
  ⟨"mod27", ⟨1, 0, 0⟩,
    ⟨⟨"route27", "Test", "main"⟩ :: [], [], [], [], []⟩⟩ ::
  ⟨"mod28", ⟨1, 0, 0⟩,
    ⟨⟨"route28", "Test", "main"⟩ :: [], [], [], [], []⟩⟩ ::
  ⟨"mod29", ⟨1, 0, 0⟩,
    ⟨⟨"route29", "Test", "main"⟩ :: [], [], [], [], []⟩⟩ ::
  ⟨"mod30", ⟨1, 0, 0⟩,
    ⟨⟨"route30", "Test", "main"⟩ :: [], [], [], [], []⟩⟩ ::
  ⟨"mod31", ⟨1, 0, 0⟩,
    ⟨⟨"route31", "Test", "main"⟩ :: [], [], [], [], []⟩⟩ ::
  ⟨"mod32", ⟨1, 0, 0⟩,
    ⟨⟨"route32", "Test", "main"⟩ :: [], [], [], [], []⟩⟩ ::
  ⟨"mod33", ⟨1, 0, 0⟩,
    ⟨⟨"route33", "Test", "main"⟩ :: [], [], [], [], []⟩⟩ ::
  ⟨"mod34", ⟨1, 0, 0⟩,
    ⟨⟨"route34", "Test", "main"⟩ :: [], [], [], [], []⟩⟩ ::
  ⟨"mod35", ⟨1, 0, 0⟩,
    ⟨⟨"route35", "Test", "main"⟩ :: [], [], [], [], []⟩⟩ ::
  ⟨"mod36", ⟨1, 0, 0⟩,
    ⟨⟨"route36", "Test", "main"⟩ :: [], [], [], [], []⟩⟩ ::
  ⟨"mod37", ⟨1, 0, 0⟩,
    ⟨⟨"route37", "Test", "main"⟩ :: [], [], [], [], []⟩⟩ ::
  ⟨"mod38", ⟨1, 0, 0⟩,
    ⟨⟨"route38", "Test", "main"⟩ :: [], [], [], [], []⟩⟩ ::
  ⟨"mod39", ⟨1, 0, 0⟩,
    ⟨⟨"route39", "Test", "main"⟩ :: [], [], [], [], []⟩⟩ ::
  ⟨"mod40", ⟨1, 0, 0⟩,
    ⟨⟨"route40", "Test", "main"⟩ :: [], [], [], [], []⟩⟩ ::
  ⟨"mod41", ⟨1, 0, 0⟩,
    ⟨⟨"route41", "Test", "main"⟩ :: [], [], [], [], []⟩⟩ ::
  ⟨"mod42", ⟨1, 0, 0⟩,
    ⟨⟨"route42", "Test", "main"⟩ :: [], [], [], [], []⟩⟩ ::
  ⟨"mod43", ⟨1, 0, 0⟩,
    ⟨⟨"route43", "Test", "main"⟩ :: [], [], [], [], []⟩⟩ ::
  ⟨"mod44", ⟨1, 0, 0⟩,
    ⟨⟨"route44", "Test", "main"⟩ :: [], [], [], [], []⟩⟩ ::
  ⟨"mod45", ⟨1, 0, 0⟩,
    ⟨⟨"route45", "Test", "main"⟩ :: [], [], [], [], []⟩⟩ ::
  ⟨"mod46", ⟨1, 0, 0⟩,
    ⟨⟨"route46", "Test", "main"⟩ :: [], [], [], [], []⟩⟩ ::
  ⟨"mod47", ⟨1, 0, 0⟩,
    ⟨⟨"route47", "Test", "main"⟩ :: [], [], [], [], []⟩⟩ ::
  ⟨"mod48", ⟨1, 0, 0⟩,
    ⟨⟨"route48", "Test", "main"⟩ :: [], [], [], [], []⟩⟩ ::
  ⟨"mod49", ⟨1, 0, 0⟩,
    ⟨⟨"route49", "Test", "main"⟩ :: [], [], [], [], []⟩⟩ ::
  ⟨"mod50", ⟨1, 0, 0⟩,
    ⟨⟨"route50", "Test", "main"⟩ :: [], [], [], [], []⟩⟩ ::
  ⟨"mod51", ⟨1, 0, 0⟩,
    ⟨⟨"route51", "Test", "main"⟩ :: [], [], [], [], []⟩⟩ ::
  ⟨"mod52", ⟨1, 0, 0⟩,
    ⟨⟨"route52", "Test", "main"⟩ :: [], [], [], [], []⟩⟩ ::
  ⟨"mod53", ⟨1, 0, 0⟩,
    ⟨⟨"route53", "Test", "main"⟩ :: [], [], [], [], []⟩⟩ ::
  ⟨"mod54", ⟨1, 0, 0⟩,
    ⟨⟨"route54", "Test", "main"⟩ :: [], [], [], [], []⟩⟩ ::
  ⟨"mod55", ⟨1, 0, 0⟩,
    ⟨⟨"route55", "Test", "main"⟩ :: [], [], [], [], []⟩⟩ ::
  ⟨"mod56", ⟨1, 0, 0⟩,
    ⟨⟨"route56", "Test", "main"⟩ :: [], [], [], [], []⟩⟩ ::
  ⟨"mod57", ⟨1, 0, 0⟩,
    ⟨⟨"route57", "Test", "main"⟩ :: [], [], [], [], []⟩⟩ ::
  ⟨"mod58", ⟨1, 0, 0⟩,
    ⟨⟨"route58", "Test", "main"⟩ :: [], [], [], [], []⟩⟩ ::
  ⟨"mod59", ⟨1, 0, 0⟩,
    ⟨⟨"route59", "Test", "main"⟩ :: [], [], [], [], []⟩⟩ ::
  ⟨"mod60", ⟨1, 0, 0⟩,
    ⟨⟨"route60", "Test", "main"⟩ :: [], [], [], [], []⟩⟩ ::
  ⟨"mod61", ⟨1, 0, 0⟩,
    ⟨⟨"route61", "Test", "main"⟩ :: [], [], [], [], []⟩⟩ ::
  ⟨"mod62", ⟨1, 0, 0⟩,
    ⟨⟨"route62", "Test", "main"⟩ :: [], [], [], [], []⟩⟩ ::
  ⟨"mod63", ⟨1, 0, 0⟩,
    ⟨⟨"route63", "Test", "main"⟩ :: [], [], [], [], []⟩⟩ ::
  ⟨"mod64", ⟨1, 0, 0⟩,
    ⟨⟨"route64", "Test", "main"⟩ :: [], [], [], [], []⟩⟩ ::
  ⟨"mod65", ⟨1, 0, 0⟩,
    ⟨⟨"route65", "Test", "main"⟩ :: [], [], [], [], []⟩⟩ ::
  ⟨"mod66", ⟨1, 0, 0⟩,
    ⟨⟨"route66", "Test", "main"⟩ :: [], [], [], [], []⟩⟩ ::
  ⟨"mod67", ⟨1, 0, 0⟩,
    ⟨⟨"route67", "Test", "main"⟩ :: [], [], [], [], []⟩⟩ ::
  ⟨"mod68", ⟨1, 0, 0⟩,
    ⟨⟨"route68", "Test", "main"⟩ :: [], [], [], [], []⟩⟩ ::
  ⟨"mod69", ⟨1, 0, 0⟩,
    ⟨⟨"route69", "Test", "main"⟩ :: [], [], [], [], []⟩⟩ ::
  ⟨"mod70", ⟨1, 0, 0⟩,
    ⟨⟨"route70", "Test", "main"⟩ :: [], [], [], [], []⟩⟩ ::
  ⟨"mod71", ⟨1, 0, 0⟩,
    ⟨⟨"route71", "Test", "main"⟩ :: [], [], [], [], []⟩⟩ ::
  ⟨"mod72", ⟨1, 0, 0⟩,
    ⟨⟨"route72", "Test", "main"⟩ :: [], [], [], [], []⟩⟩ ::
  ⟨"mod73", ⟨1, 0, 0⟩,
    ⟨⟨"route73", "Test", "main"⟩ :: [], [], [], [], []⟩⟩ ::
  ⟨"mod74", ⟨1, 0, 0⟩,
    ⟨⟨"route74", "Test", "main"⟩ :: [], [], [], [], []⟩⟩ ::
  ⟨"mod75", ⟨1, 0, 0⟩,
    ⟨⟨"route75", "Test", "main"⟩ :: [], [], [], [], []⟩⟩ ::
  ⟨"mod76", ⟨1, 0, 0⟩,
    ⟨⟨"route76", "Test", "main"⟩ :: [], [], [], [], []⟩⟩ ::
  ⟨"mod77", ⟨1, 0, 0⟩,
    ⟨⟨"route77", "Test", "main"⟩ :: [], [], [], [], []⟩⟩ ::
  ⟨"mod78", ⟨1, 0, 0⟩,
    ⟨⟨"route78", "Test", "main"⟩ :: [], [], [], [], []⟩⟩ ::
  ⟨"mod79", ⟨1, 0, 0⟩,
    ⟨⟨"route79", "Test", "main"⟩ :: [], [], [], [], []⟩⟩ ::
  ⟨"mod80", ⟨1, 0, 0⟩,
    ⟨⟨"route80", "Test", "main"⟩ :: [], [], [], [], []⟩⟩ ::
  ⟨"mod81", ⟨1, 0, 0⟩,
    ⟨⟨"route81", "Test", "main"⟩ :: [], [], [], [], []⟩⟩ ::
  ⟨"mod82", ⟨1, 0, 0⟩,
    ⟨⟨"route82", "Test", "main"⟩ :: [], [], [], [], []⟩⟩ ::
  ⟨"mod83", ⟨1, 0, 0⟩,
    ⟨⟨"route83", "Test", "main"⟩ :: [], [], [], [], []⟩⟩ ::
  ⟨"mod84", ⟨1, 0, 0⟩,
    ⟨⟨"route84", "Test", "main"⟩ :: [], [], [], [], []⟩⟩ ::
  ⟨"mod85", ⟨1, 0, 0⟩,
    ⟨⟨"route85", "Test", "main"⟩ :: [], [], [], [], []⟩⟩ ::
  ⟨"mod86", ⟨1, 0, 0⟩,
    ⟨⟨"route86", "Test", "main"⟩ :: [], [], [], [], []⟩⟩ ::
  ⟨"mod87", ⟨1, 0, 0⟩,
    ⟨⟨"route87", "Test", "main"⟩ :: [], [], [], [], []⟩⟩ ::
  ⟨"mod88", ⟨1, 0, 0⟩,
    ⟨⟨"route88", "Test", "main"⟩ :: [], [], [], [], []⟩⟩ ::
  ⟨"mod89", ⟨1, 0, 0⟩,
    ⟨⟨"route89", "Test", "main"⟩ :: [], [], [], [], []⟩⟩ ::
  ⟨"mod90", ⟨1, 0, 0⟩,
    ⟨⟨"route90", "Test", "main"⟩ :: [], [], [], [], []⟩⟩ ::
  ⟨"mod91", ⟨1, 0, 0⟩,
    ⟨⟨"route91", "Test", "main"⟩ :: [], [], [], [], []⟩⟩ ::
  ⟨"mod92", ⟨1, 0, 0⟩,
    ⟨⟨"route92", "Test", "main"⟩ :: [], [], [], [], []⟩⟩ ::
  ⟨"mod93", ⟨1, 0, 0⟩,
    ⟨⟨"route93", "Test", "main"⟩ :: [], [], [], [], []⟩⟩ ::
  ⟨"mod94", ⟨1, 0, 0⟩,
    ⟨⟨"route94", "Test", "main"⟩ :: [], [], [], [], []⟩⟩ ::
  ⟨"mod95", ⟨1, 0, 0⟩,
    ⟨⟨"route95", "Test", "main"⟩ :: [], [], [], [], []⟩⟩ ::
  ⟨"mod96", ⟨1, 0, 0⟩,
    ⟨⟨"route96", "Test", "main"⟩ :: [], [], [], [], []⟩⟩ ::
  ⟨"mod97", ⟨1, 0, 0⟩,
    ⟨⟨"route97", "Test", "main"⟩ :: [], [], [], [], []⟩⟩ ::
  ⟨"mod98", ⟨1, 0, 0⟩,
    ⟨⟨"route98", "Test", "main"⟩ :: [], [], [], [], []⟩⟩ ::
  ⟨"mod99", ⟨1, 0, 0⟩,
    ⟨⟨"route99", "Test", "main"⟩ :: [], [], [], [], []⟩⟩ ::
  []

/-- The expected route selections of the performance scenario: one
entry per distinct route id, in the canonical lexicographic key order,
each owned by its own module. -/
def perfExpected : List (String × String × RouteDecl) :=
  ("route0", "mod0", ⟨"route0", "Test", "main"⟩) ::
  ("route1", "mod1", ⟨"route1", "Test", "main"⟩) ::
  ("route10", "mod10", ⟨"route10", "Test", "main"⟩) ::
  ("route11", "mod11", ⟨"route11", "Test", "main"⟩) ::
  ("route12", "mod12", ⟨"route12", "Test", "main"⟩) ::
  ("route13", "mod13", ⟨"route13", "Test", "main"⟩) ::
  ("route14", "mod14", ⟨"route14", "Test", "main"⟩) ::
  ("route15", "mod15", ⟨"route15", "Test", "main"⟩) ::
  ("route16", "mod16", ⟨"route16", "Test", "main"⟩) ::
  ("route17", "mod17", ⟨"route17", "Test", "main"⟩) ::
  ("route18", "mod18", ⟨"route18", "Test", "main"⟩) ::
  ("route19", "mod19", ⟨"route19", "Test", "main"⟩) ::
  ("route2", "mod2", ⟨"route2", "Test", "main"⟩) ::
  ("route20", "mod20", ⟨"route20", "Test", "main"⟩) ::
  ("route21", "mod21", ⟨"route21", "Test", "main"⟩) ::
  ("route22", "mod22", ⟨"route22", "Test", "main"⟩) ::
  ("route23", "mod23", ⟨"route23", "Test", "main"⟩) ::
  ("route24", "mod24", ⟨"route24", "Test", "main"⟩) ::
  ("route25", "mod25", ⟨"route25", "Test", "main"⟩) ::
  ("route26", "mod26", ⟨"route26", "Test", "main"⟩) ::
  ("route27", "mod27", ⟨"route27", "Test", "main"⟩) ::
  ("route28", "mod28", ⟨"route28", "Test", "main"⟩) ::
  ("route29", "mod29", ⟨"route29", "Test", "main"⟩) ::
  ("route3", "mod3", ⟨"route3", "Test", "main"⟩) ::
  ("route30", "mod30", ⟨"route30", "Test", "main"⟩) ::
  ("route31", "mod31", ⟨"route31", "Test", "main"⟩) ::
  ("route32", "mod32", ⟨"route32", "Test", "main"⟩) ::
  ("route33", "mod33", ⟨"route33", "Test", "main"⟩) ::
  ("route34", "mod34", ⟨"route34", "Test", "main"⟩) ::
  ("route35", "mod35", ⟨"route35", "Test", "main"⟩) ::
  ("route36", "mod36", ⟨"route36", "Test", "main"⟩) ::
  ("route37", "mod37", ⟨"route37", "Test", "main"⟩) ::
  ("route38", "mod38", ⟨"route38", "Test", "main"⟩) ::
  ("route39", "mod39", ⟨"route39", "Test", "main"⟩) ::
  ("route4", "mod4", ⟨"route4", "Test", "main"⟩) ::
  ("route40", "mod40", ⟨"route40", "Test", "main"⟩) ::
  ("route41", "mod41", ⟨"route41", "Test", "main"⟩) ::
  ("route42", "mod42", ⟨"route42", "Test", "main"⟩) ::
  ("route43", "mod43", ⟨"route43", "Test", "main"⟩) ::
  ("route44", "mod44", ⟨"route44", "Test", "main"⟩) ::
  ("route45", "mod45", ⟨"route45", "Test", "main"⟩) ::
  ("route46", "mod46", ⟨"route46", "Test", "main"⟩) ::
  ("route47", "mod47", ⟨"route47", "Test", "main"⟩) ::
  ("route48", "mod48", ⟨"route48", "Test", "main"⟩) ::
  ("route49", "mod49", ⟨"route49", "Test", "main"⟩) ::
  ("route5", "mod5", ⟨"route5", "Test", "main"⟩) ::
  ("route50", "mod50", ⟨"route50", "Test", "main"⟩) ::
  ("route51", "mod51", ⟨"route51", "Test", "main"⟩) ::
  ("route52", "mod52", ⟨"route52", "Test", "main"⟩) ::
  ("route53", "mod53", ⟨"route53", "Test", "main"⟩) ::
  ("route54", "mod54", ⟨"route54", "Test", "main"⟩) ::
  ("route55", "mod55", ⟨"route55", "Test", "main"⟩) ::
  ("route56", "mod56", ⟨"route56", "Test", "main"⟩) ::
  ("route57", "mod57", ⟨"route57", "Test", "main"⟩) ::
  ("route58", "mod58", ⟨"route58", "Test", "main"⟩) ::
  ("route59", "mod59", ⟨"route59", "Test", "main"⟩) ::
  ("route6", "mod6", ⟨"route6", "Test", "main"⟩) ::
  ("route60", "mod60", ⟨"route60", "Test", "main"⟩) ::
  ("route61", "mod61", ⟨"route61", "Test", "main"⟩) ::
  ("route62", "mod62", ⟨"route62", "Test", "main"⟩) ::
  ("route63", "mod63", ⟨"route63", "Test", "main"⟩) ::
  ("route64", "mod64", ⟨"route64", "Test", "main"⟩) ::
  ("route65", "mod65", ⟨"route65", "Test", "main"⟩) ::
  ("route66", "mod66", ⟨"route66", "Test", "main"⟩) ::
  ("route67", "mod67", ⟨"route67", "Test", "main"⟩) ::
  ("route68", "mod68", ⟨"route68", "Test", "main"⟩) ::
  ("route69", "mod69", ⟨"route69", "Test", "main"⟩) ::
  ("route7", "mod7", ⟨"route7", "Test", "main"⟩) ::
  ("route70", "mod70", ⟨"route70", "Test", "main"⟩) ::
  ("route71", "mod71", ⟨"route71", "Test", "main"⟩) ::
  ("route72", "mod72", ⟨"route72", "Test", "main"⟩) ::
  ("route73", "mod73", ⟨"route73", "Test", "main"⟩) ::
  ("route74", "mod74", ⟨"route74", "Test", "main"⟩) ::
  ("route75", "mod75", ⟨"route75", "Test", "main"⟩) ::
  ("route76", "mod76", ⟨"route76", "Test", "main"⟩) ::
  ("route77", "mod77", ⟨"route77", "Test", "main"⟩) ::
  ("route78", "mod78", ⟨"route78", "Test", "main"⟩) ::
  ("route79", "mod79", ⟨"route79", "Test", "main"⟩) ::
  ("route8", "mod8", ⟨"route8", "Test", "main"⟩) ::
  ("route80", "mod80", ⟨"route80", "Test", "main"⟩) ::
  ("route81", "mod81", ⟨"route81", "Test", "main"⟩) ::
  ("route82", "mod82", ⟨"route82", "Test", "main"⟩) ::
  ("route83", "mod83", ⟨"route83", "Test", "main"⟩) ::
  ("route84", "mod84", ⟨"route84", "Test", "main"⟩) ::
  ("route85", "mod85", ⟨"route85", "Test", "main"⟩) ::
  ("route86", "mod86", ⟨"route86", "Test", "main"⟩) ::
  ("route87", "mod87", ⟨"route87", "Test", "main"⟩) ::
  ("route88", "mod88", ⟨"route88", "Test", "main"⟩) ::
  ("route89", "mod89", ⟨"route89", "Test", "main"⟩) ::
  ("route9", "mod9", ⟨"route9", "Test", "main"⟩) ::
  ("route90", "mod90", ⟨"route90", "Test", "main"⟩) ::
  ("route91", "mod91", ⟨"route91", "Test", "main"⟩) ::
  ("route92", "mod92", ⟨"route92", "Test", "main"⟩) ::
  ("route93", "mod93", ⟨"route93", "Test", "main"⟩) ::
  ("route94", "mod94", ⟨"route94", "Test", "main"⟩) ::
  ("route95", "mod95", ⟨"route95", "Test", "main"⟩) ::
  ("route96", "mod96", ⟨"route96", "Test", "main"⟩) ::
  ("route97", "mod97", ⟨"route97", "Test", "main"⟩) ::
  ("route98", "mod98", ⟨"route98", "Test", "main"⟩) ::
  ("route99", "mod99", ⟨"route99", "Test", "main"⟩) ::
  []

/-- The decidable content of the performance scenario of §8, checked on
the result of the merge: the merge succeeds with no diagnostics, its
route selections are exactly `perfExpected` — 100 entries, `route{i}`
owned by `mod{i}` — and a merge run against an empty version cache ends
with a single cache entry, because all 200 version strings of the 100
modules are the same string and are parsed once. -/
def perfCheck : Bool :=
  match merge_module_metadata ⟨1, 0, 0⟩ ⟨1, 0, 0⟩ perfMods with
  | .error _ => false
  | .ok (md, dg) =>
    decide (md.route_selections = perfExpected) &&
    decide (perfExpected.length = 100) &&
    decide (dg.rejected = []) &&
    decide ((mergeCached ⟨1, 0, 0⟩ ⟨1, 0, 0⟩ [] perfMods).2.length = 1)

theorem charLt_asymm {a b : Char} (h : charLt a b = true) :
    charLt b a = false := by
  unfold charLt at *
  simp only [decide_eq_true_eq] at h
  simp only [decide_eq_false_iff_not]
  omega

theorem charLt_conn {a b : Char} (h1 : charLt a b = false)
    (h2 : charLt b a = false) : a = b := by
  unfold charLt at *
  simp only [decide_eq_false_iff_not] at h1 h2
  apply Char.ext
  apply UInt32.toNat.inj
  have h3 : a.toNat = b.toNat := by omega
  exact h3

theorem ltChars_irrefl (l : List Char) : ltChars l l = false := by
  induction l with
  | nil => rfl
  | cons a as ih =>
    unfold ltChars
    have h : charLt a a = false := by unfold charLt; simp
    simp [h, ih]

theorem ltChars_asymm : ∀ {a b : List Char}, ltChars a b = true →
    ltChars b a = false := by
  intro a
  induction a with
  | nil =>
    intro b h
    cases b with
    | nil => exact absurd h (by simp [ltChars])
    | cons x xs => rfl
  | cons x xs ih =>
    intro b h
    cases b with
    | nil => exact absurd h (by simp [ltChars])
    | cons y ys =>
      unfold ltChars at h ⊢
      by_cases h1 : charLt x y = true
      · simp [h1, charLt_asymm h1]
      · rw [Bool.not_eq_true] at h1
        by_cases h2 : charLt y x = true
        · simp [h1, h2] at h
        · rw [Bool.not_eq_true] at h2
          simp only [h1, h2, Bool.false_eq_true, if_false] at h ⊢
          exact ih h

theorem ltChars_trans : ∀ {a b c : List Char}, ltChars a b = true →
    ltChars b c = true → ltChars a c = true := by
  intro a
  induction a with
  | nil =>
    intro b c h1 h2
    cases b with
    | nil => exact absurd h1 (by simp [ltChars])
    | cons y ys =>
      cases c with
      | nil => exact absurd h2 (by simp [ltChars])
      | cons z zs => rfl
  | cons x xs ih =>
    intro b c h1 h2
    cases b with
    | nil => exact absurd h1 (by simp [ltChars])
    | cons y ys =>
      cases c with
      | nil => exact absurd h2 (by simp [ltChars])
      | cons z zs =>
        unfold ltChars at h1 h2 ⊢
        unfold charLt at *
        simp only [decide_eq_true_eq] at *
        by_cases hxy : x.toNat < y.toNat
        · by_cases hyz : y.toNat < z.toNat
          · simp [Nat.lt_trans hxy hyz]
          · by_cases hzy : z.toNat < y.toNat
            · simp [hyz, hzy] at h2
            · have heq : y.toNat = z.toNat := by omega
              have hxz : x.toNat < z.toNat := by omega
              simp [hxz]
        · by_cases hyx : y.toNat < x.toNat
          · simp [hxy, hyx] at h1
          · have hxy2 : x.toNat = y.toNat := by omega
            by_cases hyz : y.toNat < z.toNat
            · have hxz : x.toNat < z.toNat := by omega
              simp [hxz]
            · by_cases hzy : z.toNat < y.toNat
              · simp [hyz, hzy] at h2
              · have hxz : ¬ x.toNat < z.toNat := by omega
                have hzx : ¬ z.toNat < x.toNat := by omega
                simp only [hxy, hyx, Bool.false_eq_true, if_false,
                  decide_eq_true_eq] at h1
                simp only [hyz, hzy, Bool.false_eq_true, if_false,
                  decide_eq_true_eq] at h2
                simp only [hxz, hzx, Bool.false_eq_true, if_false,
                  decide_eq_true_eq]
                exact ih h1 h2

theorem ltChars_conn : ∀ {a b : List Char}, ltChars a b = false →
    ltChars b a = false → a = b := by
  intro a
  induction a with
  | nil =>
    intro b h1 _
    cases b with
    | nil => rfl
    | cons y ys => exact absurd h1 (by simp [ltChars])
  | cons x xs ih =>
    intro b h1 h2
    cases b with
    | nil => exact absurd h2 (by simp [ltChars])
    | cons y ys =>
      unfold ltChars at h1 h2
      by_cases hxy : charLt x y = true
      · simp [hxy] at h1
      · rw [Bool.not_eq_true] at hxy
        by_cases hyx : charLt y x = true
        · simp [hyx, hxy] at h2
        · rw [Bool.not_eq_true] at hyx
          simp only [hxy, hyx, Bool.false_eq_true, if_false] at h1 h2
          rw [charLt_conn hxy hyx, ih h1 h2]

theorem string_data_eq {a b : String} (h : a.data = b.data) : a = b := by
  cases a
  cases b
  exact congrArg String.mk h

theorem pick_comm {α : Type} (lt : α → α → Bool)
    (asymm : ∀ x y, lt x y = true → lt y x = false)
    (conn : ∀ x y, lt x y = false → lt y x = false → x = y)
    (a b : α) : (if lt a b then b else a) = (if lt b a then a else b) := by
  by_cases h1 : lt a b = true
  · simp [h1, asymm _ _ h1]
  · rw [Bool.not_eq_true] at h1
    by_cases h2 : lt b a = true
    · simp [h1, h2]
    · rw [Bool.not_eq_true] at h2
      simp [h1, h2, conn _ _ h1 h2]

theorem pick_assoc {α : Type} (lt : α → α → Bool)
    (tr : ∀ x y z, lt x y = true → lt y z = true → lt x z = true)
    (conn : ∀ x y, lt x y = false → lt y x = false → x = y)
    (a b c : α) :
    (if lt (if lt a b then b else a) c then c else if lt a b then b else a) =
      (if lt a (if lt b c then c else b) then (if lt b c then c else b)
        else a) := by
  by_cases h1 : lt a b = true <;> by_cases h2 : lt b c = true
  · have h3 : lt a c = true := tr _ _ _ h1 h2
    simp [h1, h2, h3]
  · rw [Bool.not_eq_true] at h2
    simp [h1, h2]
  · rw [Bool.not_eq_true] at h1
    simp [h1, h2]
  · rw [Bool.not_eq_true] at h1 h2
    have h3 : lt a c = false := by
      by_cases h4 : lt a c = true
      · by_cases h5 : lt c b = true
        · exact absurd (tr _ _ _ h4 h5) (by simp [h1])
        · rw [Bool.not_eq_true] at h5
          rw [conn _ _ h2 h5] at h1
          exact absurd h4 (by simp [h1])
      · rw [Bool.not_eq_true] at h4
        exact h4
    simp [h1, h2, h3]

theorem verLt_asymm {a b : Version} (h : verLt a b = true) :
    verLt b a = false := by
  unfold verLt at *
  split_ifs at * <;> simp_all <;> omega

theorem verLt_trans {a b c : Version} (h1 : verLt a b = true)
    (h2 : verLt b c = true) : verLt a c = true := by
  unfold verLt at *
  split_ifs at * <;> simp_all <;> omega

theorem verLt_conn {a b : Version} (h1 : verLt a b = false)
    (h2 : verLt b a = false) : a = b := by
  cases a
  cases b
  unfold verLt at *
  simp_all only
  split_ifs at * <;> simp_all <;> omega

theorem verMax_comm (a b : Version) : verMax a b = verMax b a := by
  unfold verMax
  exact pick_comm verLt (fun _ _ h => verLt_asymm h)
    (fun _ _ h1 h2 => verLt_conn h1 h2) a b

theorem verMax_assoc (a b c : Version) :
    verMax (verMax a b) c = verMax a (verMax b c) := by
  unfold verMax
  exact pick_assoc verLt (fun _ _ _ h1 h2 => verLt_trans h1 h2)
    (fun _ _ h1 h2 => verLt_conn h1 h2) a b c

theorem sGt_asymm (x y : String) (h : ltChars y.data x.data = true) :
    ltChars x.data y.data = false := ltChars_asymm h

theorem sGt_conn (x y : String) (h1 : ltChars y.data x.data = false)
    (h2 : ltChars x.data y.data = false) : x = y :=
  string_data_eq (ltChars_conn h2 h1)

theorem minS_comm (a b : String) : minS a b = minS b a := by
  unfold minS
  exact pick_comm (fun x y => ltChars y.data x.data) sGt_asymm sGt_conn a b

theorem minS_assoc (a b c : String) :
    minS (minS a b) c = minS a (minS b c) := by
  unfold minS
  exact pick_assoc (fun x y => ltChars y.data x.data)
    (by intro x y z h1 h2; exact ltChars_trans h2 h1) sGt_conn a b c

theorem ltFalse_trans {α : Type} (lt : α → α → Bool)
    (tr : ∀ x y z, lt x y = true → lt y z = true → lt x z = true)
    (conn : ∀ x y, lt x y = false → lt y x = false → x = y)
    {a b c : α} (h1 : lt a b = false) (h2 : lt b c = false) :
    lt a c = false := by
  by_cases h3 : lt a c = true
  · by_cases h4 : lt c b = true
    · exact absurd (tr _ _ _ h3 h4) (by simp [h1])
    · rw [Bool.not_eq_true] at h4
      rw [conn _ _ h2 h4] at h1
      exact absurd h3 (by simp [h1])
  · rw [Bool.not_eq_true] at h3
    exact h3

theorem verLt_irrefl (a : Version) : verLt a a = false := by
  unfold verLt
  split_ifs <;> simp_all

theorem verLt_false_trans {a b c : Version} (h1 : verLt a b = false)
    (h2 : verLt b c = false) : verLt a c = false :=
  ltFalse_trans verLt (fun _ _ _ u v => verLt_trans u v)
    (fun _ _ u v => verLt_conn u v) h1 h2

theorem ltChars_false_trans {a b c : List Char} (h1 : ltChars a b = false)
    (h2 : ltChars b c = false) : ltChars a c = false := by
  by_cases h3 : ltChars a c = true
  · by_cases h4 : ltChars c b = true
    · exact absurd (ltChars_trans h3 h4) (by simp [h1])
    · rw [Bool.not_eq_true] at h4
      rw [ltChars_conn h2 h4] at h1
      exact absurd h3 (by simp [h1])
  · rw [Bool.not_eq_true] at h3
    exact h3

theorem verMax_ge_left (a b : Version) : verLt (verMax a b) a = false := by
  unfold verMax
  by_cases h : verLt a b = true
  · simp only [h, if_true]
    exact verLt_asymm h
  · rw [Bool.not_eq_true] at h
    simp only [h, Bool.false_eq_true, if_false]
    exact verLt_irrefl a

theorem verMax_ge_right (a b : Version) : verLt (verMax a b) b = false := by
  rw [verMax_comm]
  exact verMax_ge_left b a

theorem minS_le_left (a b : String) :
    ltChars a.data (minS a b).data = false := by
  unfold minS
  by_cases h : ltChars b.data a.data = true
  · simp only [h, if_true]
    exact ltChars_asymm h
  · rw [Bool.not_eq_true] at h
    simp only [h, Bool.false_eq_true, if_false]
    exact ltChars_irrefl a.data

theorem minS_le_right (a b : String) :
    ltChars b.data (minS a b).data = false := by
  rw [minS_comm]
  exact minS_le_left b a

theorem bestVer_perm {β : Type} {l l' : List (String × Version × β)}
    (h : l.Perm l') : bestVer l = bestVer l' := by
  induction h with
  | nil => rfl
  | cons x _ ih => simp only [bestVer, ih]
  | swap x y l =>
    cases hb : bestVer l <;>
      simp only [bestVer, hb] <;>
      rw [verMax_comm] <;>
      try rw [verMax_assoc, verMax_comm y.2.1, ← verMax_assoc]
  | trans _ _ ih1 ih2 => exact ih1.trans ih2

theorem bestVer_none {β : Type} {l : List (String × Version × β)} :
    bestVer l = none ↔ l = [] := by
  cases l with
  | nil => simp [bestVer]
  | cons c rest =>
    simp only [bestVer]
    cases bestVer rest <;> simp

theorem bestVer_max {β : Type} :
    ∀ (l : List (String × Version × β)) (v : Version),
      bestVer l = some v → ∀ c ∈ l, verLt v c.2.1 = false := by
  intro l
  induction l with
  | nil => intro v _ c hc; exact absurd hc (by simp)
  | cons c rest ih =>
    intro v hv x hx
    simp only [bestVer] at hv
    cases hb : bestVer rest with
    | none =>
      rw [hb] at hv
      injection hv with hv
      subst hv
      rw [bestVer_none] at hb
      subst hb
      simp only [List.mem_singleton] at hx
      subst hx
      exact verLt_irrefl _
    | some w =>
      rw [hb] at hv
      injection hv with hv
      subst hv
      rcases List.mem_cons.mp hx with hx | hx
      · subst hx
        exact verMax_ge_left _ _
      · exact verLt_false_trans (verMax_ge_right c.2.1 w) (ih w hb x hx)

theorem bestVer_mem {β : Type} :
    ∀ (l : List (String × Version × β)) (v : Version),
      bestVer l = some v → ∃ c ∈ l, c.2.1 = v := by
  intro l
  induction l with
  | nil => intro v hv; exact absurd hv (by simp [bestVer])
  | cons c rest ih =>
    intro v hv
    simp only [bestVer] at hv
    cases hb : bestVer rest with
    | none =>
      rw [hb] at hv
      injection hv with hv
      exact ⟨c, by simp, hv⟩
    | some w =>
      rw [hb] at hv
      injection hv with hv
      unfold verMax at hv
      by_cases hcw : verLt c.2.1 w = true
      · rw [if_pos hcw] at hv
        obtain ⟨x, hx, hxv⟩ := ih w hb
        exact ⟨x, by simp [hx], by rw [hxv, hv]⟩
      · rw [Bool.not_eq_true] at hcw
        rw [if_neg (by simp [hcw])] at hv
        exact ⟨c, by simp, hv⟩

theorem bestId_perm {β : Type} (v : Version)
    {l l' : List (String × Version × β)} (h : l.Perm l') :
    bestId v l = bestId v l' := by
  induction h with
  | nil => rfl
  | cons x _ ih => simp only [bestId, ih]
  | swap x y l =>
    by_cases hx : x.2.1 = v <;> by_cases hy : y.2.1 = v <;>
      cases hb : bestId v l <;>
      simp only [bestId, hb, hx, hy, if_pos, if_neg, if_true, if_false] <;>
      simp [hx, hy] <;>
      rw [minS_comm] <;>
      try rw [minS_assoc, minS_comm y.1, ← minS_assoc]
  | trans _ _ ih1 ih2 => exact ih1.trans ih2

theorem bestId_mem {β : Type} (v : Version) :
    ∀ (l : List (String × Version × β)) (i : String),
      bestId v l = some i → ∃ c ∈ l, c.1 = i ∧ c.2.1 = v := by
  intro l
  induction l with
  | nil => intro i hi; exact absurd hi (by simp [bestId])
  | cons c rest ih =>
    intro i hi
    simp only [bestId] at hi
    by_cases hc : c.2.1 = v
    · rw [if_pos hc] at hi
      injection hi with hi
      cases hb : bestId v rest with
      | none =>
        rw [hb] at hi
        have hi2 : c.1 = i := hi
        exact ⟨c, by simp, hi2, hc⟩
      | some j =>
        rw [hb] at hi
        have hi2 : minS c.1 j = i := hi
        subst hi2
        unfold minS
        by_cases hcj : ltChars j.data c.1.data = true
        · rw [if_pos hcj]
          obtain ⟨x, hx, hxj, hxv⟩ := ih j hb
          exact ⟨x, by simp [hx], hxj, hxv⟩
        · rw [Bool.not_eq_true] at hcj
          rw [if_neg (by simp [hcj])]
          exact ⟨c, by simp, rfl, hc⟩
    · rw [if_neg hc] at hi
      obtain ⟨x, hx, hxi, hxv⟩ := ih i hi
      exact ⟨x, by simp [hx], hxi, hxv⟩

theorem bestId_isSome {β : Type} (v : Version) :
    ∀ (l : List (String × Version × β)),
      (∃ c ∈ l, c.2.1 = v) → bestId v l ≠ none := by
  intro l
  induction l with
  | nil => intro ⟨c, hc, _⟩; exact absurd hc (by simp)
  | cons c rest ih =>
    intro ⟨x, hx, hxv⟩
    simp only [bestId]
    by_cases hc : c.2.1 = v
    · simp [hc]
    · rw [if_neg hc]
      rcases List.mem_cons.mp hx with hx2 | hx2
      · subst hx2
        exact absurd hxv hc
      · exact ih ⟨x, hx2, hxv⟩

theorem bestId_min {β : Type} (v : Version) :
    ∀ (l : List (String × Version × β)) (i : String),
      bestId v l = some i →
      ∀ c ∈ l, c.2.1 = v → ltChars c.1.data i.data = false := by
  intro l
  induction l with
  | nil => intro i _ c hc; exact absurd hc (by simp)
  | cons c rest ih =>
    intro i hi x hx hxv
    simp only [bestId] at hi
    by_cases hc : c.2.1 = v
    · rw [if_pos hc] at hi
      injection hi with hi
      cases hb : bestId v rest with
      | none =>
        rw [hb] at hi
        have hi2 : c.1 = i := hi
        subst hi2
        rcases List.mem_cons.mp hx with hx | hx
        · subst hx
          exact ltChars_irrefl _
        · exact absurd hb (bestId_isSome v rest ⟨x, hx, hxv⟩)
      | some j =>
        rw [hb] at hi
        have hi2 : minS c.1 j = i := hi
        subst hi2
        rcases List.mem_cons.mp hx with hx | hx
        · subst hx
          exact minS_le_left _ _
        · exact ltChars_false_trans (ih j hb x hx hxv) (minS_le_right c.1 j)
    · rw [if_neg hc] at hi
      rcases List.mem_cons.mp hx with hx2 | hx2
      · subst hx2
        exact absurd hxv hc
      · exact ih i hi x hx2 hxv

theorem find?_congr_perm {α : Type} {p : α → Bool} {l l' : List α}
    (h : l.Perm l')
    (u : ∀ x ∈ l, ∀ y ∈ l, p x = true → p y = true → x = y) :
    l.find? p = l'.find? p := by
  cases hf : l.find? p with
  | none =>
    rw [List.find?_eq_none] at hf
    symm
    rw [List.find?_eq_none]
    intro x hx
    exact hf x (h.mem_iff.mpr hx)
  | some a =>
    have ha := List.find?_some hf
    have hm := List.mem_of_find?_eq_some hf
    have hs : (l'.find? p).isSome := by
      rw [List.find?_isSome]
      exact ⟨a, h.mem_iff.mp hm, ha⟩
    cases hf' : l'.find? p with
    | none => rw [hf'] at hs; exact absurd hs (by simp)
    | some b =>
      have hb := List.find?_some hf'
      have hmb := List.mem_of_find?_eq_some hf'
      rw [u a hm b (h.mem_iff.mpr hmb) ha hb]


theorem filterMap_fst_sublist {α β γ : Type} (f : α → Option β)
    (g : β → γ) (gh : α → γ)
    (hc : ∀ a b, f a = some b → g b = gh a) :
    ∀ l : List α, List.Sublist ((l.filterMap f).map g) (l.map gh) := by
  intro l
  induction l with
  | nil => simp
  | cons a rest ih =>
    cases hf : f a with
    | none =>
      simp only [List.filterMap_cons, hf, List.map_cons]
      exact ih.cons (gh a)
    | some b =>
      simp only [List.filterMap_cons, hf, List.map_cons, hc a b hf]
      exact ih.cons₂ (gh a)

theorem admit_toOption_id {lo hi : Version} {m : Module} {a : Adm}
    (h : (admitModule lo hi m).toOption = some a) :
    a.module_id = m.module_id := by
  unfold admitModule at h
  split at h
  · simp [Except.toOption] at h
  · split at h
    · simp [Except.toOption] at h
    · split at h
      · split at h
        · simp only [Except.toOption] at h
          injection h with h
          rw [← h]
        · simp [Except.toOption] at h
        · simp [Except.toOption] at h
      · simp [Except.toOption] at h

theorem admittedIds_sublist (lo hi : Version) (mods : List Module) :
    List.Sublist ((admittedList lo hi mods).map (fun a => a.module_id))
      (mods.map (fun m => m.module_id)) := by
  unfold admittedList
  exact filterMap_fst_sublist _ _ _
    (fun m a h => admit_toOption_id h) mods

theorem candsIds_sublist {β : Type} (get : Contribution → List (String × β))
    (adm : List Adm) (k : String) :
    List.Sublist ((cands get adm k).map (fun c => c.1))
      (adm.map (fun a => a.module_id)) := by
  unfold cands
  apply filterMap_fst_sublist
  intro a t h
  rw [Option.map_eq_some'] at h
  obtain ⟨p, _, hp⟩ := h
  rw [← hp]

theorem cands_nodup_ids {β : Type} {get : Contribution → List (String × β)}
    {adm : List Adm} {k : String}
    (hn : (adm.map (fun a => a.module_id)).Nodup) :
    ((cands get adm k).map (fun c => c.1)).Nodup :=
  hn.sublist (candsIds_sublist get adm k)

theorem winner_congr_perm {β : Type} {get : Contribution → List (String × β)}
    {adm adm' : List Adm} (h : adm.Perm adm')
    (hn : (adm.map (fun a => a.module_id)).Nodup) (k : String) :
    winner get adm k = winner get adm' k := by
  have hc : (cands get adm k).Perm (cands get adm' k) := h.filterMap _
  unfold winner
  rw [bestVer_perm hc]
  cases hbv : bestVer (cands get adm' k) with
  | none => simp
  | some v =>
    simp only [Option.some_bind]
    rw [bestId_perm v hc]
    cases hbi : bestId v (cands get adm' k) with
    | none => simp
    | some i =>
      simp only [Option.some_bind]
      apply find?_congr_perm hc
      intro x hx y hy hpx hpy
      simp only [decide_eq_true_eq] at hpx hpy
      exact List.inj_on_of_nodup_map (cands_nodup_ids hn) hx hy
        (hpx.trans hpy.symm)

theorem sLe_total (a b : String) : sLe a b ∨ sLe b a := by
  unfold sLe
  by_cases h : ltChars b.data a.data = true
  · exact Or.inr (ltChars_asymm h)
  · rw [Bool.not_eq_true] at h
    exact Or.inl h

theorem sLe_trans2 {a b c : String} (h1 : sLe a b) (h2 : sLe b c) :
    sLe a c := by
  unfold sLe at *
  exact ltChars_false_trans h2 h1

theorem sLe_antisymm {a b : String} (h1 : sLe a b) (h2 : sLe b a) :
    a = b := by
  unfold sLe at *
  exact string_data_eq (ltChars_conn h2 h1)

theorem keysOf_nodup {β : Type} (get : Contribution → List (String × β))
    (adm : List Adm) : (keysOf get adm).Nodup := by
  unfold keysOf
  exact (List.perm_insertionSort sLe _).nodup_iff.mpr (List.nodup_dedup _)

theorem mem_keysOf {β : Type} {get : Contribution → List (String × β)}
    {adm : List Adm} {k : String} :
    k ∈ keysOf get adm ↔
      ∃ a ∈ adm, ∃ p ∈ get a.contrib, p.1 = k := by
  unfold keysOf
  rw [(List.perm_insertionSort sLe _).mem_iff, List.mem_dedup,
    List.mem_flatten]
  constructor
  · intro ⟨s, hs, hks⟩
    rw [List.mem_map] at hs
    obtain ⟨a, ha, hsa⟩ := hs
    rw [← hsa, List.mem_map] at hks
    obtain ⟨p, hp, hpk⟩ := hks
    exact ⟨a, ha, p, hp, hpk⟩
  · intro ⟨a, ha, p, hp, hpk⟩
    refine ⟨(get a.contrib).map (fun q => q.1), List.mem_map.mpr ⟨a, ha, rfl⟩, ?_⟩
    rw [List.mem_map]
    exact ⟨p, hp, hpk⟩

theorem keysOf_perm {β : Type} {get : Contribution → List (String × β)}
    {adm adm' : List Adm} (h : adm.Perm adm') :
    keysOf get adm = keysOf get adm' := by
  unfold keysOf
  have hperm : ((adm.map (fun a => (get a.contrib).map (fun p => p.1))).flatten).dedup.Perm
      ((adm'.map (fun a => (get a.contrib).map (fun p => p.1))).flatten).dedup :=
    ((h.map _).flatten).dedup
  exact @List.eq_of_perm_of_sorted String sLe ⟨fun _ _ u v => sLe_antisymm u v⟩ _ _
    ((List.perm_insertionSort sLe _).trans
      (hperm.trans (List.perm_insertionSort sLe _).symm))
    (@List.sorted_insertionSort String sLe _ ⟨sLe_total⟩
      ⟨fun _ _ _ u v => sLe_trans2 u v⟩ _)
    (@List.sorted_insertionSort String sLe _ ⟨sLe_total⟩
      ⟨fun _ _ _ u v => sLe_trans2 u v⟩ _)

theorem winner_ne_none {β : Type} {get : Contribution → List (String × β)}
    {adm : List Adm} {k : String} (hk : k ∈ keysOf get adm) :
    winner get adm k ≠ none := by
  rw [mem_keysOf] at hk
  obtain ⟨a, ha, p, hp, hpk⟩ := hk
  have hfs : ((get a.contrib).find? (fun q => decide (q.1 = k))).isSome := by
    rw [List.find?_isSome]
    exact ⟨p, hp, by simp [hpk]⟩
  cases hf : (get a.contrib).find? (fun q => decide (q.1 = k)) with
  | none => rw [hf] at hfs; exact absurd hfs (by simp)
  | some q =>
    have hcand : (a.module_id, a.ver, q.2) ∈ cands get adm k := by
      unfold cands
      rw [List.mem_filterMap]
      exact ⟨a, ha, by rw [hf]; rfl⟩
    have hne : cands get adm k ≠ [] := by
      intro hnil
      rw [hnil] at hcand
      exact absurd hcand (by simp)
    unfold winner
    cases hbv : bestVer (cands get adm k) with
    | none => exact absurd (bestVer_none.mp hbv) hne
    | some v =>
      simp only [Option.some_bind]
      obtain ⟨c, hcm, hcv⟩ := bestVer_mem _ v hbv
      cases hbi : bestId v (cands get adm k) with
      | none => exact absurd hbi (bestId_isSome v _ ⟨c, hcm, hcv⟩)
      | some i =>
        simp only [Option.some_bind]
        obtain ⟨c2, hc2m, hc2i, hc2v⟩ := bestId_mem v _ i hbi
        have hfs2 : ((cands get adm k).find? (fun c => decide (c.1 = i))).isSome := by
          rw [List.find?_isSome]
          exact ⟨c2, hc2m, by simp [hc2i]⟩
        cases hf2 : (cands get adm k).find? (fun c => decide (c.1 = i)) with
        | none => rw [hf2] at hfs2; exact absurd hfs2 (by simp)
        | some t => simp [hf2]

theorem filterMap_keyed_map_fst {β : Type}
    (f : String → Option (String × β)) :
    ∀ l : List String, (∀ k ∈ l, ∃ y, f k = some (k, y)) →
      ((l.filterMap f).map (fun e => e.1)) = l := by
  intro l
  induction l with
  | nil => intro _; simp
  | cons k rest ih =>
    intro h
    obtain ⟨y, hy⟩ := h k (by simp)
    simp only [List.filterMap_cons, hy, List.map_cons]
    rw [ih (fun k2 hk2 => h k2 (by simp [hk2]))]

theorem resolve_keys {β : Type} (get : Contribution → List (String × β))
    (adm : List Adm) :
    ((resolve get adm).map (fun e => e.1)) = keysOf get adm := by
  unfold resolve
  apply filterMap_keyed_map_fst
  intro k hk
  cases hw : winner get adm k with
  | none => exact absurd hw (winner_ne_none hk)
  | some w => exact ⟨(w.1, w.2.2), rfl⟩

theorem resolve_congr_perm {β : Type} {get : Contribution → List (String × β)}
    {adm adm' : List Adm} (h : adm.Perm adm')
    (hn : (adm.map (fun a => a.module_id)).Nodup) :
    resolve get adm = resolve get adm' := by
  unfold resolve
  rw [keysOf_perm h]
  apply List.filterMap_congr
  intro k _
  rw [winner_congr_perm h hn k]

theorem winner_spec {β : Type} {get : Contribution → List (String × β)}
    {adm : List Adm} {k : String} {t : String × Version × β}
    (hn : (adm.map (fun a => a.module_id)).Nodup)
    (hw : winner get adm k = some t) :
    t ∈ cands get adm k ∧
      ∀ c ∈ cands get adm k,
        verLt t.2.1 c.2.1 = false ∧
          (c.2.1 = t.2.1 → ltChars c.1.data t.1.data = false) := by
  unfold winner at hw
  cases hbv : bestVer (cands get adm k) with
  | none => rw [hbv] at hw; exact absurd hw (by simp)
  | some v =>
    rw [hbv] at hw
    simp only [Option.some_bind] at hw
    cases hbi : bestId v (cands get adm k) with
    | none => rw [hbi] at hw; exact absurd hw (by simp)
    | some i =>
      rw [hbi] at hw
      simp only [Option.some_bind] at hw
      have htm := List.mem_of_find?_eq_some hw
      have hti : t.1 = i := by
        have := List.find?_some hw
        simpa using this
      obtain ⟨c2, hc2m, hc2i, hc2v⟩ := bestId_mem v _ i hbi
      have hct : c2 = t :=
        List.inj_on_of_nodup_map (cands_nodup_ids hn) hc2m htm
          (by rw [hc2i, hti])
      have htv : t.2.1 = v := by rw [← hct, hc2v]
      refine ⟨htm, ?_⟩
      intro c hc
      constructor
      · rw [htv]
        exact bestVer_max _ v hbv c hc
      · intro hcv
        have hm := bestId_min v _ i hbi c hc (by rw [hcv, htv])
        rw [hti]
        exact hm

theorem merge_error_iff (lo hi : Version) (mods : List Module)
    (e : MergeError) :
    merge_module_metadata lo hi mods = .error e ↔
      (e = MergeError.duplicateModuleId ∧
        ¬ (mods.map (fun m => m.module_id)).Nodup) := by
  unfold merge_module_metadata
  split
  · next h => simp [h]
  · next h => cases e; simp [h]

theorem merge_ok_inv {lo hi : Version} {mods : List Module}
    {md : MergedMetadata} {dg : Diagnostics}
    (hok : merge_module_metadata lo hi mods = .ok (md, dg)) :
    (mods.map (fun m => m.module_id)).Nodup ∧
      md = mergeCore (admittedList lo hi mods) ∧
      dg = ⟨rejectedList lo hi mods⟩ := by
  unfold merge_module_metadata at hok
  split at hok
  · next hnd =>
    simp only [Except.ok.injEq, Prod.mk.injEq] at hok
    exact ⟨hnd, hok.1.symm, hok.2.symm⟩
  · exact absurd hok (by simp)

theorem merge_ok_of_nodup {lo hi : Version} {mods : List Module}
    (hnd : (mods.map (fun m => m.module_id)).Nodup) :
    merge_module_metadata lo hi mods =
      .ok (mergeCore (admittedList lo hi mods),
        ⟨rejectedList lo hi mods⟩) := by
  unfold merge_module_metadata
  rw [if_pos hnd]

theorem admitted_nodup_ids (lo hi : Version) {mods : List Module}
    (hnd : (mods.map (fun m => m.module_id)).Nodup) :
    ((admittedList lo hi mods).map (fun a => a.module_id)).Nodup :=
  hnd.sublist (admittedIds_sublist lo hi mods)

/-- C1.  Whenever the merged metadata maps a route id `k` to a winning
module `w` with descriptor `rd`, some admitted module `a` with
identifier `w` declared `k` with descriptor `rd`, `a`'s declared
version is maximal among all admitted modules declaring `k`, and any
other admitted module declaring `k` at that same maximal version has a
lexicographically larger-or-equal module identifier.  Determinism across
repeated runs holds because `merge_module_metadata` is a function of its
input. -/
theorem c1_version_precedence (lo hi : Version) (mods : List Module)
    (md : MergedMetadata) (dg : Diagnostics) (k w : String)
    (rd : RouteDecl)
    (hok : merge_module_metadata lo hi mods = .ok (md, dg))
    (hmem : (k, w, rd) ∈ md.route_selections) :
    ∃ a ∈ admittedList lo hi mods, a.module_id = w ∧
      a.contrib.routes.find? (fun r => decide (r.id = k)) = some rd ∧
      ∀ b ∈ admittedList lo hi mods, ∀ rd2 : RouteDecl,
        b.contrib.routes.find? (fun r => decide (r.id = k)) = some rd2 →
        verLt a.ver b.ver = false ∧
          (b.ver = a.ver → ltChars b.module_id.data w.data = false) := by
  obtain ⟨hnd, hmd, _⟩ := merge_ok_inv hok
  subst hmd
  have hna := admitted_nodup_ids lo hi hnd
  simp only [mergeCore] at hmem
  unfold resolve at hmem
  rw [List.mem_filterMap] at hmem
  obtain ⟨k2, hk2, hk2some⟩ := hmem
  rw [Option.map_eq_some'] at hk2some
  obtain ⟨t, ht, hteq⟩ := hk2some
  simp only [Prod.mk.injEq] at hteq
  obtain ⟨hk2k, htw, htrd⟩ := hteq
  subst hk2k
  obtain ⟨htm, hmax⟩ := winner_spec hna ht
  unfold cands at htm
  rw [List.mem_filterMap] at htm
  obtain ⟨a, ha, haeq⟩ := htm
  rw [Option.map_eq_some'] at haeq
  obtain ⟨p, hfind, hpeq⟩ := haeq
  unfold routesGet at hfind
  rw [List.find?_map] at hfind
  have hfind2 : (a.contrib.routes.find?
      (fun r => decide (r.id = k2))).map (fun r => (r.id, r)) = some p :=
    hfind
  rw [Option.map_eq_some'] at hfind2
  obtain ⟨r0, hr0, hr0p⟩ := hfind2
  refine ⟨a, ha, ?_, ?_, ?_⟩
  · rw [← htw, ← hpeq]
  · rw [hr0]
    have : p.2 = r0 := by rw [← hr0p]
    rw [← htrd, ← hpeq, this]
  · intro b hb rd2 hbfind
    have hbc : (b.module_id, b.ver, rd2) ∈ cands routesGet
        (admittedList lo hi mods) k2 := by
      unfold cands
      rw [List.mem_filterMap]
      refine ⟨b, hb, ?_⟩
      unfold routesGet
      rw [List.find?_map]
      have hb2 : (b.contrib.routes.find? ((fun p : String × RouteDecl =>
          decide (p.1 = k2)) ∘ (fun r => (r.id, r)))) = some rd2 := hbfind
      rw [hb2]
      rfl
    obtain ⟨h1, h2⟩ := hmax _ hbc
    constructor
    · have hta : t.2.1 = a.ver := by rw [← hpeq]
      rw [← hta]
      exact h1
    · intro hba
      have hta : t.2.1 = a.ver := by rw [← hpeq]
      have := h2 (by simp only [hta]; exact hba)
      rw [← htw]
      simpa using this

/-- C2.  Permuting the input module sequence never changes whether the
merge fails, the set of admitted modules, the set of rejection
diagnostics, the route selections, the resolved commands and reducers
ownership, or the merged initial state; only the keybindings
concatenation order may differ between the two runs. -/
theorem c2_order_independence (lo hi : Version) (mods mods' : List Module)
    (hp : mods.Perm mods') :
    ((merge_module_metadata lo hi mods = .error .duplicateModuleId) ↔
      (merge_module_metadata lo hi mods' = .error .duplicateModuleId)) ∧
    (admittedList lo hi mods).Perm (admittedList lo hi mods') ∧
    (rejectedList lo hi mods).Perm (rejectedList lo hi mods') ∧
    ∀ md dg md' dg',
      merge_module_metadata lo hi mods = .ok (md, dg) →
      merge_module_metadata lo hi mods' = .ok (md', dg') →
      md.route_selections = md'.route_selections ∧
      md.commands = md'.commands ∧
      md.reducers = md'.reducers ∧
      md.initial_state = md'.initial_state := by
  have hadm : (admittedList lo hi mods).Perm (admittedList lo hi mods') :=
    hp.filterMap _
  have hrej : (rejectedList lo hi mods).Perm (rejectedList lo hi mods') :=
    hp.filterMap _
  have hniff : (mods.map (fun m => m.module_id)).Nodup ↔
      (mods'.map (fun m => m.module_id)).Nodup := (hp.map _).nodup_iff
  refine ⟨?_, hadm, hrej, ?_⟩
  · rw [merge_error_iff, merge_error_iff]
    simp [hniff]
  · intro md dg md' dg' hok hok'
    obtain ⟨hnd, hmd, _⟩ := merge_ok_inv hok
    obtain ⟨hnd', hmd', _⟩ := merge_ok_inv hok'
    subst hmd
    subst hmd'
    have hna := admitted_nodup_ids lo hi hnd
    refine ⟨?_, ?_, ?_, ?_⟩
    · simp only [mergeCore]
      exact resolve_congr_perm hadm hna
    · simp only [mergeCore]
      exact resolve_congr_perm hadm hna
    · simp only [mergeCore]
      exact resolve_congr_perm hadm hna
    · simp only [mergeCore]
      rw [resolve_congr_perm hadm hna]

/-- C3.  The route selections of a successful merge hold exactly one
entry for each distinct route id appearing in any admitted module's
contribution, and no other entries. -/
theorem c3_route_selections_exact (lo hi : Version) (mods : List Module)
    (md : MergedMetadata) (dg : Diagnostics)
    (hok : merge_module_metadata lo hi mods = .ok (md, dg)) :
    (md.route_selections.map (fun e => e.1)).Nodup ∧
    ∀ k, (∃ e ∈ md.route_selections, e.1 = k) ↔
      ∃ a ∈ admittedList lo hi mods, ∃ r ∈ a.contrib.routes, r.id = k := by
  obtain ⟨hnd, hmd, _⟩ := merge_ok_inv hok
  subst hmd
  constructor
  · simp only [mergeCore]
    rw [resolve_keys]
    exact keysOf_nodup _ _
  · intro k
    simp only [mergeCore]
    have h1 : (∃ e ∈ resolve routesGet (admittedList lo hi mods), e.1 = k) ↔
        k ∈ (resolve routesGet (admittedList lo hi mods)).map
          (fun e => e.1) := by
      rw [List.mem_map]
    rw [h1, resolve_keys, mem_keysOf]
    constructor
    · intro ⟨a, ha, p, hp, hpk⟩
      unfold routesGet at hp
      rw [List.mem_map] at hp
      obtain ⟨r, hr, hrp⟩ := hp
      exact ⟨a, ha, r, hr, by rw [← hpk, ← hrp]⟩
    · intro ⟨a, ha, r, hr, hrk⟩
      exact ⟨a, ha, (r.id, r), by
        unfold routesGet
        rw [List.mem_map]
        exact ⟨r, hr, rfl⟩, hrk⟩

/-- C6.  The merge fails outright exactly when the input sequence
contains two entries with the same module identifier, and duplicate
module identifiers are the only condition under which the merge itself
fails. -/
theorem c6_duplicate_fatal (lo hi : Version) (mods : List Module) :
    ∀ e : MergeError,
      merge_module_metadata lo hi mods = .error e ↔
        (e = MergeError.duplicateModuleId ∧
          ¬ (mods.map (fun m => m.module_id)).Nodup) := by
  intro e
  exact merge_error_iff lo hi mods e

theorem admittedList_append (lo hi : Version) (l1 l2 : List Module) :
    admittedList lo hi (l1 ++ l2) =
      admittedList lo hi l1 ++ admittedList lo hi l2 := by
  unfold admittedList
  rw [List.filterMap_append]

theorem rejectedList_append (lo hi : Version) (l1 l2 : List Module) :
    rejectedList lo hi (l1 ++ l2) =
      rejectedList lo hi l1 ++ rejectedList lo hi l2 := by
  unfold rejectedList
  rw [List.filterMap_append]

theorem admittedList_cons_error {lo hi : Version} {m : Module}
    {r : RejectReason} (h : admitModule lo hi m = .error r)
    (l : List Module) :
    admittedList lo hi (m :: l) = admittedList lo hi l := by
  unfold admittedList
  rw [List.filterMap_cons]
  simp [h, Except.toOption]

theorem rejectedList_cons_error {lo hi : Version} {m : Module}
    {r : RejectReason} (h : admitModule lo hi m = .error r)
    (l : List Module) :
    rejectedList lo hi (m :: l) =
      (m.module_id, r) :: rejectedList lo hi l := by
  unfold rejectedList
  rw [List.filterMap_cons]
  simp [h]

/-- C4.  A module-scoped failure (any of the four rejection reasons)
affecting one module rejects only that module: the merge still returns
a result, the failure is recorded in the diagnostics, and the merged
metadata — route selections, commands, reducers, initial state, and
keybindings — is exactly the metadata of the input with the failing
module removed, so every other admitted module's contributions still
appear. -/
theorem c4_rejection_isolation (lo hi : Version) (pre post : List Module)
    (m : Module) (r : RejectReason)
    (hadm : admitModule lo hi m = .error r)
    (hnd : ((pre ++ m :: post).map (fun mm => mm.module_id)).Nodup) :
    ∃ md dg md2 dg2,
      merge_module_metadata lo hi (pre ++ m :: post) = .ok (md, dg) ∧
      merge_module_metadata lo hi (pre ++ post) = .ok (md2, dg2) ∧
      md = md2 ∧
      (m.module_id, r) ∈ dg.rejected ∧
      dg.rejected = rejectedList lo hi pre ++
        (m.module_id, r) :: rejectedList lo hi post ∧
      dg2.rejected = rejectedList lo hi pre ++ rejectedList lo hi post := by
  have hnd2 : ((pre ++ post).map (fun mm => mm.module_id)).Nodup := by
    rw [List.map_append] at hnd ⊢
    rw [List.map_cons] at hnd
    exact hnd.sublist
      (List.Sublist.append (List.Sublist.refl _)
        (List.sublist_cons_self m.module_id _))
  have hadmeq : admittedList lo hi (pre ++ m :: post) =
      admittedList lo hi (pre ++ post) := by
    rw [admittedList_append, admittedList_append,
      admittedList_cons_error hadm]
  have hrejeq : rejectedList lo hi (pre ++ m :: post) =
      rejectedList lo hi pre ++
        (m.module_id, r) :: rejectedList lo hi post := by
    rw [rejectedList_append, rejectedList_cons_error hadm]
  refine ⟨_, _, _, _, merge_ok_of_nodup hnd, merge_ok_of_nodup hnd2,
    ?_, ?_, ?_, ?_⟩
  · rw [hadmeq]
  · rw [hrejeq]
    simp
  · exact hrejeq
  · exact rejectedList_append lo hi pre post

/-- Closed witness for C4: a module whose build raises, between two
healthy modules, is rejected with `buildInvocationError` while the
other two modules' contributions survive unchanged. -/
theorem c4_rejection_isolation_witness :
    ∃ md dg md2 dg2,
      merge_module_metadata ⟨1, 0, 0⟩ ⟨1, 0, 0⟩
        (⟨"alpha", "1.0.0", "1.0.0", [], .ok
            ⟨⟨"home", "Home", "main"⟩ :: [], [], [], [], []⟩⟩ ::
          ⟨"broken", "1.0.0", "1.0.0", [], .raises⟩ ::
          ⟨"gamma", "1.0.0", "1.0.0", [], .ok
            ⟨⟨"help", "Help", "main"⟩ :: [], [], [], [], []⟩⟩ :: []) =
        .ok (md, dg) ∧
      merge_module_metadata ⟨1, 0, 0⟩ ⟨1, 0, 0⟩
        (⟨"alpha", "1.0.0", "1.0.0", [], .ok
            ⟨⟨"home", "Home", "main"⟩ :: [], [], [], [], []⟩⟩ ::
          ⟨"gamma", "1.0.0", "1.0.0", [], .ok
            ⟨⟨"help", "Help", "main"⟩ :: [], [], [], [], []⟩⟩ :: []) =
        .ok (md2, dg2) ∧
      md = md2 ∧
      ("broken", RejectReason.buildInvocationError) ∈ dg.rejected ∧
      dg.rejected = rejectedList ⟨1, 0, 0⟩ ⟨1, 0, 0⟩
          (⟨"alpha", "1.0.0", "1.0.0", [], .ok
            ⟨⟨"home", "Home", "main"⟩ :: [], [], [], [], []⟩⟩ :: []) ++
        ("broken", RejectReason.buildInvocationError) ::
          rejectedList ⟨1, 0, 0⟩ ⟨1, 0, 0⟩
            (⟨"gamma", "1.0.0", "1.0.0", [], .ok
              ⟨⟨"help", "Help", "main"⟩ :: [], [], [], [], []⟩⟩ :: []) ∧
      dg2.rejected = rejectedList ⟨1, 0, 0⟩ ⟨1, 0, 0⟩
          (⟨"alpha", "1.0.0", "1.0.0", [], .ok
            ⟨⟨"home", "Home", "main"⟩ :: [], [], [], [], []⟩⟩ :: []) ++
        rejectedList ⟨1, 0, 0⟩ ⟨1, 0, 0⟩
          (⟨"gamma", "1.0.0", "1.0.0", [], .ok
            ⟨⟨"help", "Help", "main"⟩ :: [], [], [], [], []⟩⟩ :: []) :=
  c4_rejection_isolation ⟨1, 0, 0⟩ ⟨1, 0, 0⟩
    (⟨"alpha", "1.0.0", "1.0.0", [], .ok
      ⟨⟨"home", "Home", "main"⟩ :: [], [], [], [], []⟩⟩ :: [])
    (⟨"gamma", "1.0.0", "1.0.0", [], .ok
      ⟨⟨"help", "Help", "main"⟩ :: [], [], [], [], []⟩⟩ :: [])
    ⟨"broken", "1.0.0", "1.0.0", [], .raises⟩
    RejectReason.buildInvocationError (by rfl) (by decide)

theorem parseCached_fst (c : VCache) (s : String) (hc : cacheOk c) :
    (parseCached c s).1 = parseVersion s := by
  unfold parseCached
  cases hf : cacheFind c s with
  | none =>
    cases hp : parseVersion s <;> simp [hp]
  | some v =>
    simp only
    unfold cacheFind at hf
    rw [Option.map_eq_some'] at hf
    obtain ⟨p, hfind, hpv⟩ := hf
    have hm := List.mem_of_find?_eq_some hfind
    have hps := List.find?_some hfind
    simp only [decide_eq_true_eq] at hps
    have hpp := hc p hm
    rw [hps] at hpp
    rw [hpp, hpv]

theorem parseCached_cacheOk (c : VCache) (s : String) (hc : cacheOk c) :
    cacheOk (parseCached c s).2 := by
  unfold parseCached
  cases hf : cacheFind c s with
  | none =>
    cases hp : parseVersion s with
    | none => exact hc
    | some v =>
      intro p hp2
      rcases List.mem_cons.mp hp2 with hp3 | hp3
      · rw [hp3]
        exact hp
      · exact hc p hp3
  | some v => exact hc

theorem parseCached_idem (c : VCache) (s : String) (hc : cacheOk c) :
    (parseCached (parseCached c s).2 s).1 = (parseCached c s).1 := by
  rw [parseCached_fst _ s (parseCached_cacheOk c s hc),
    parseCached_fst c s hc]

theorem admitModuleC_eq (lo hi : Version) (c : VCache) (m : Module)
    (hc : cacheOk c) :
    (admitModuleC lo hi c m).1 = admitModule lo hi m ∧
      cacheOk (admitModuleC lo hi c m).2 := by
  unfold admitModuleC admitModule
  rcases hpc1 : parseCached c m.semver with ⟨r1, c1⟩
  have hr1 : r1 = parseVersion m.semver := by
    have hx := parseCached_fst c m.semver hc
    rw [hpc1] at hx
    exact hx
  have hc1 : cacheOk c1 := by
    have hx := parseCached_cacheOk c m.semver hc
    rw [hpc1] at hx
    exact hx
  cases hv : parseVersion m.semver with
  | none =>
    rw [hv] at hr1
    subst hr1
    simp [hc1]
  | some v =>
    rw [hv] at hr1
    subst hr1
    simp only
    rcases hpc2 : parseCached c1 m.contract_semver with ⟨r2, c2⟩
    have hr2 : r2 = parseVersion m.contract_semver := by
      have hx := parseCached_fst c1 m.contract_semver hc1
      rw [hpc2] at hx
      exact hx
    have hc2 : cacheOk c2 := by
      have hx := parseCached_cacheOk c1 m.contract_semver hc1
      rw [hpc2] at hx
      exact hx
    cases hcv : parseVersion m.contract_semver with
    | none =>
      rw [hcv] at hr2
      subst hr2
      simp [hc2]
    | some cv =>
      rw [hcv] at hr2
      subst hr2
      simp only
      by_cases hg : (verLe lo cv && verLe cv hi) = true
      · rw [hg]
        simp only [if_true]
        cases m.build <;> simp [hc2]
      · rw [Bool.not_eq_true] at hg
        rw [hg]
        simp [hc2]

theorem scanModulesC_eq (lo hi : Version) :
    ∀ (mods : List Module) (c : VCache), cacheOk c →
      (scanModulesC lo hi c mods).1 = admittedList lo hi mods ∧
      (scanModulesC lo hi c mods).2.1 = rejectedList lo hi mods ∧
      cacheOk (scanModulesC lo hi c mods).2.2 := by
  intro mods
  induction mods with
  | nil =>
    intro c hc
    exact ⟨rfl, rfl, hc⟩
  | cons m rest ih =>
    intro c hc
    obtain ⟨ha, hcc⟩ := admitModuleC_eq lo hi c m hc
    obtain ⟨ih1, ih2, ih3⟩ := ih (admitModuleC lo hi c m).2 hcc
    unfold scanModulesC
    cases hres : (admitModuleC lo hi c m).1 with
    | ok a =>
      have hA : admitModule lo hi m = .ok a := by rw [← ha]; exact hres
      refine ⟨?_, ?_, ih3⟩
      · show a :: (scanModulesC lo hi (admitModuleC lo hi c m).2 rest).1 =
          admittedList lo hi (m :: rest)
        rw [ih1]
        unfold admittedList
        rw [List.filterMap_cons]
        simp [hA, Except.toOption]
      · show (scanModulesC lo hi (admitModuleC lo hi c m).2 rest).2.1 =
          rejectedList lo hi (m :: rest)
        rw [ih2]
        unfold rejectedList
        rw [List.filterMap_cons]
        simp [hA]
    | error r =>
      have hA : admitModule lo hi m = .error r := by rw [← ha]; exact hres
      refine ⟨?_, ?_, ih3⟩
      · show (scanModulesC lo hi (admitModuleC lo hi c m).2 rest).1 =
          admittedList lo hi (m :: rest)
        rw [ih1]
        unfold admittedList
        rw [List.filterMap_cons]
        simp [hA, Except.toOption]
      · show (m.module_id, r) ::
            (scanModulesC lo hi (admitModuleC lo hi c m).2 rest).2.1 =
          rejectedList lo hi (m :: rest)
        rw [ih2]
        unfold rejectedList
        rw [List.filterMap_cons]
        simp [hA]

/-- C5.  The merge result is a pure function of the input sequence: a
merge executed against any coherent process-wide version cache returns
exactly the `MergedMetadata` and `Diagnostics` of the cache-free merge
and leaves the cache coherent, and parsing the same version string
twice — against the original cache or against the cache the first parse
produced — yields the same parse result. -/
theorem c5_cache_purity (lo hi : Version) (mods : List Module)
    (c : VCache) (hc : cacheOk c) :
    (mergeCached lo hi c mods).1 = merge_module_metadata lo hi mods ∧
    cacheOk (mergeCached lo hi c mods).2 ∧
    ∀ s : String, (parseCached c s).1 = parseVersion s ∧
      (parseCached (parseCached c s).2 s).1 = (parseCached c s).1 := by
  obtain ⟨h1, h2, h3⟩ := scanModulesC_eq lo hi mods c hc
  refine ⟨?_, ?_, ?_⟩
  · unfold mergeCached merge_module_metadata
    by_cases hnd : (mods.map (fun m => m.module_id)).Nodup
    · rw [if_pos hnd, if_pos hnd]
      simp only [h1, h2]
    · rw [if_neg hnd, if_neg hnd]
  · unfold mergeCached
    by_cases hnd : (mods.map (fun m => m.module_id)).Nodup
    · rw [if_pos hnd]
      exact h3
    · rw [if_neg hnd]
      exact hc
  · intro s
    exact ⟨parseCached_fst c s hc, parseCached_idem c s hc⟩

/-- Closed witness for C5: the empty cache is coherent, and a merge of
one concrete module against it reproduces the cache-free merge. -/
theorem c5_cache_purity_witness :
    (mergeCached ⟨1, 0, 0⟩ ⟨2, 0, 0⟩ []
        (⟨"alpha", "1.2.3", "1.5.0", [], .ok ⟨[], [], [], [], []⟩⟩ :: [])).1 =
      merge_module_metadata ⟨1, 0, 0⟩ ⟨2, 0, 0⟩
        (⟨"alpha", "1.2.3", "1.5.0", [], .ok ⟨[], [], [], [], []⟩⟩ :: []) ∧
    cacheOk (mergeCached ⟨1, 0, 0⟩ ⟨2, 0, 0⟩ []
        (⟨"alpha", "1.2.3", "1.5.0", [], .ok ⟨[], [], [], [], []⟩⟩ :: [])).2 ∧
    ∀ s : String, (parseCached [] s).1 = parseVersion s ∧
      (parseCached (parseCached [] s).2 s).1 = (parseCached [] s).1 :=
  c5_cache_purity ⟨1, 0, 0⟩ ⟨2, 0, 0⟩
    (⟨"alpha", "1.2.3", "1.5.0", [], .ok ⟨[], [], [], [], []⟩⟩ :: [])
    [] (by intro p hp; exact absurd hp (by simp))

set_option maxRecDepth 100000

set_option maxHeartbeats 4000000

/-- C7.  The 100-module performance scenario of §8: the merge returns
100 route selections, each `route{i}` owned by `mod{i}` with its own
descriptor, with no diagnostics; and a run against an empty version
cache finishes with exactly one cache entry, i.e. the one distinct
version string `"1.0.0"` is parsed once rather than once per module or
per route, which is the mechanism behind the near-linear running time. -/
theorem c7_performance_scenario : perfCheck = true := by
  have hnd : (perfMods.map (fun m => m.module_id)).Nodup := by decide
  have h1 : admittedList ⟨1, 0, 0⟩ ⟨1, 0, 0⟩ perfMods = perfAdm := by decide
  have h2 : rejectedList ⟨1, 0, 0⟩ ⟨1, 0, 0⟩ perfMods = [] := by decide
  unfold perfCheck
  rw [merge_ok_of_nodup hnd]
  show (decide ((mergeCore (admittedList ⟨1, 0, 0⟩ ⟨1, 0, 0⟩
      perfMods)).route_selections = perfExpected) &&
    decide (perfExpected.length = 100) &&
    decide ((⟨rejectedList ⟨1, 0, 0⟩ ⟨1, 0, 0⟩ perfMods⟩ :
      Diagnostics).rejected = []) &&
    decide ((mergeCached ⟨1, 0, 0⟩ ⟨1, 0, 0⟩ [] perfMods).2.length = 1)) =
    true
  rw [h1, h2]
  decide

/-- C8.  Navigating to an unregistered route id returns `False` and
leaves the navigator untouched: routes, history and current route are
unchanged and no handler is invoked. -/
theorem c8_navigate_missing (nav : Navigator) (rid : String)
    (push : Bool) (h : ∀ p ∈ nav.routes, p.1 ≠ rid) :
    nav.navigate_to rid push = (nav, false, []) := by
  unfold Navigator.navigate_to
  have hf : nav.routes.find? (fun p => decide (p.1 = rid)) = none := by
    rw [List.find?_eq_none]
    intro p hp
    simp [h p hp]
  rw [hf]

/-- Closed witness for C8: a navigator with one registered route,
asked to navigate to an id that is not registered. -/
theorem c8_navigate_missing_witness :
    (∀ p ∈ (⟨("home", ⟨"home", "Home", none⟩) :: [], [],
        some "home"⟩ : Navigator).routes, p.1 ≠ "missing") ∧
    Navigator.navigate_to
        ⟨("home", ⟨"home", "Home", none⟩) :: [], [], some "home"⟩
        "missing" true =
      (⟨("home", ⟨"home", "Home", none⟩) :: [], [], some "home"⟩,
        false, []) :=
  ⟨by decide,
    c8_navigate_missing
      ⟨("home", ⟨"home", "Home", none⟩) :: [], [], some "home"⟩
      "missing" true (by decide)⟩

/-- C9.  From a current route `c` that is registered, navigating to a
registered route `r` with history pushing and then going back succeeds
twice, restores the current route to `c`, restores the history to its
value before the navigation, and leaves the registered routes
unchanged. -/
theorem c9_navigate_back_roundtrip (nav : Navigator) (c r : String)
    (hcur : nav.current = some c)
    (hcreg : ∃ p ∈ nav.routes, p.1 = c)
    (hrreg : ∃ p ∈ nav.routes, p.1 = r) :
    (nav.navigate_to r true).2.1 = true ∧
    ((nav.navigate_to r true).1.go_back).2.1 = true ∧
    ((nav.navigate_to r true).1.go_back).1.current = some c ∧
    ((nav.navigate_to r true).1.go_back).1.history = nav.history ∧
    ((nav.navigate_to r true).1.go_back).1.routes = nav.routes := by
  have hfr : ∃ pr, nav.routes.find? (fun p => decide (p.1 = r)) = some pr := by
    have hso : (nav.routes.find? (fun p => decide (p.1 = r))).isSome := by
      rw [List.find?_isSome]
      obtain ⟨p, hp, hpk⟩ := hrreg
      exact ⟨p, hp, by simp [hpk]⟩
    cases hx : nav.routes.find? (fun p => decide (p.1 = r)) with
    | none => rw [hx] at hso; exact absurd hso (by simp)
    | some pr => exact ⟨pr, rfl⟩
  obtain ⟨pr, hfr⟩ := hfr
  have hfc : ∃ pc, nav.routes.find? (fun p => decide (p.1 = c)) = some pc := by
    have hso : (nav.routes.find? (fun p => decide (p.1 = c))).isSome := by
      rw [List.find?_isSome]
      obtain ⟨p, hp, hpk⟩ := hcreg
      exact ⟨p, hp, by simp [hpk]⟩
    cases hx : nav.routes.find? (fun p => decide (p.1 = c)) with
    | none => rw [hx] at hso; exact absurd hso (by simp)
    | some pc => exact ⟨pc, rfl⟩
  obtain ⟨pc, hfc⟩ := hfc
  have step1 : nav.navigate_to r true =
      ({ routes := nav.routes, history := nav.history ++ [c],
          current := some r }, true,
        (match pr.2.handler with | some h => [h] | none => [])) := by
    unfold Navigator.navigate_to
    rw [hfr]
    simp only [hcur]
  have hgl : (nav.history ++ [c]).getLast? = some c := by simp
  have hdl : (nav.history ++ [c]).dropLast = nav.history := by simp
  have step2 : (nav.navigate_to r true).1.go_back =
      ({ routes := nav.routes, history := nav.history,
          current := some c }, true,
        (match pc.2.handler with | some h => [h] | none => [])) := by
    rw [step1]
    show Navigator.go_back
      ⟨nav.routes, nav.history ++ [c], some r⟩ = _
    unfold Navigator.go_back
    simp only [hgl, hdl]
    unfold Navigator.navigate_to
    simp only
    rw [hfc]
  rw [step2, step1]
  exact ⟨rfl, rfl, rfl, rfl, rfl⟩

/-- Closed witness for C9: a two-route navigator currently on `home`
navigates to `help` and back. -/
theorem c9_navigate_back_roundtrip_witness :
    ((⟨("home", ⟨"home", "Home", none⟩) ::
        ("help", ⟨"help", "Help", some 7⟩) :: [], ["start"],
        some "home"⟩ : Navigator).current = some "home") ∧
    ((⟨("home", ⟨"home", "Home", none⟩) ::
        ("help", ⟨"help", "Help", some 7⟩) :: [], ["start"],
        some "home"⟩ : Navigator).navigate_to "help" true).2.1 = true ∧
    (((⟨("home", ⟨"home", "Home", none⟩) ::
        ("help", ⟨"help", "Help", some 7⟩) :: [], ["start"],
        some "home"⟩ : Navigator).navigate_to "help"
        true).1.go_back).2.1 = true ∧
    (((⟨("home", ⟨"home", "Home", none⟩) ::
        ("help", ⟨"help", "Help", some 7⟩) :: [], ["start"],
        some "home"⟩ : Navigator).navigate_to "help"
        true).1.go_back).1.current = some "home" ∧
    (((⟨("home", ⟨"home", "Home", none⟩) ::
        ("help", ⟨"help", "Help", some 7⟩) :: [], ["start"],
        some "home"⟩ : Navigator).navigate_to "help"
        true).1.go_back).1.history = ["start"] := by
  have h := c9_navigate_back_roundtrip
    ⟨("home", ⟨"home", "Home", none⟩) ::
      ("help", ⟨"help", "Help", some 7⟩) :: [], ["start"], some "home"⟩
    "home" "help" (by decide)
    ⟨("home", ⟨"home", "Home", none⟩), by decide, by decide⟩
    ⟨("help", ⟨"help", "Help", some 7⟩), by decide, by decide⟩
  exact ⟨by decide, h.1, h.2.1, h.2.2.1, h.2.2.2.1⟩

theorem dropWhile_append_single {p : Char → Bool} {q : Char}
    (hq : p q = false) :
    ∀ xs ys : List Char,
      (xs ++ q :: ys).dropWhile p = xs.dropWhile p ++ q :: ys := by
  intro xs
  induction xs with
  | nil =>
    intro ys
    simp [List.dropWhile_cons, hq]
  | cons a as ih =>
    intro ys
    by_cases hpa : p a = true
    · simp [List.dropWhile_cons, hpa, ih]
    · rw [Bool.not_eq_true] at hpa
      simp [List.dropWhile_cons, hpa]

theorem matchTail_append_esc (xs ys : List Char)
    (h : matchTail xs = none) :
    matchTail (xs ++ escChar :: ys) = none := by
  unfold matchTail at h ⊢
  have hesc : csiBody escChar = false := by decide
  rw [dropWhile_append_single hesc]
  cases hd : xs.dropWhile csiBody with
  | nil =>
    have ha : escChar.isAlpha = false := by decide
    simp [ha]
  | cons d r4 =>
    rw [hd] at h
    by_cases hda : d.isAlpha = true
    · simp [hda] at h
    · rw [Bool.not_eq_true] at hda
      simp [hda]

theorem matchAnsi_append_esc {xs : List Char} (ys : List Char)
    (hne : xs ≠ []) (h : matchAnsi xs = none) :
    matchAnsi (xs ++ escChar :: ys) = none := by
  cases xs with
  | nil => exact absurd rfl hne
  | cons a t1 =>
    cases t1 with
    | nil =>
      have hni : ¬(a = escChar ∧ escChar = '[') := by
        intro ⟨_, h2⟩
        exact absurd h2 (by decide)
      cases ys with
      | nil =>
        show (if a = escChar ∧ escChar = '[' then matchTail []
          else none) = none
        rw [if_neg hni]
      | cons y ys2 =>
        show (if a = escChar ∧ escChar = '[' then
          (if y = '?' then matchTail ys2 else matchTail (y :: ys2))
          else none) = none
        rw [if_neg hni]
    | cons b t =>
      cases t with
      | nil =>
        have h2 : (if a = escChar ∧ b = '[' then matchTail []
            else none) = none := h
        show (if a = escChar ∧ b = '[' then
          (if escChar = '?' then matchTail ys
            else matchTail (escChar :: ys)) else none) = none
        by_cases hco : a = escChar ∧ b = '['
        · rw [if_pos hco]
          have hq : ¬(escChar = '?') := by decide
          rw [if_neg hq]
          exact matchTail_append_esc [] ys (by rfl)
        · rw [if_neg hco]
      | cons q t2 =>
        have h2 : (if a = escChar ∧ b = '[' then
            (if q = '?' then matchTail t2 else matchTail (q :: t2))
            else none) = none := h
        show (if a = escChar ∧ b = '[' then
          (if q = '?' then matchTail (t2 ++ escChar :: ys)
            else matchTail (q :: (t2 ++ escChar :: ys)))
          else none) = none
        by_cases hco : a = escChar ∧ b = '['
        · rw [if_pos hco] at h2
          rw [if_pos hco]
          by_cases hq : q = '?'
          · rw [if_pos hq] at h2
            rw [if_pos hq]
            exact matchTail_append_esc t2 ys h2
          · rw [if_neg hq] at h2
            rw [if_neg hq]
            exact matchTail_append_esc (q :: t2) ys h2
        · rw [if_neg hco]

theorem stripAnsi_nil : stripAnsi [] = [] := by
  rw [stripAnsi]

theorem containsAnsi_false_head {c : Char} {rest : List Char}
    (h : containsAnsi (c :: rest) = false) :
    matchAnsi (c :: rest) = none ∧ containsAnsi rest = false := by
  unfold containsAnsi at h
  rw [Bool.or_eq_false_iff] at h
  obtain ⟨h1, h2⟩ := h
  refine ⟨?_, h2⟩
  cases hx : matchAnsi (c :: rest) with
  | none => rfl
  | some r => rw [hx] at h1; exact absurd h1 (by simp)

theorem stripAnsi_cons_none {c : Char} {rest : List Char}
    (h : matchAnsi (c :: rest) = none) :
    stripAnsi (c :: rest) = c :: stripAnsi rest := by
  rw [stripAnsi]
  split
  · next r' heq => rw [h] at heq; exact absurd heq (by simp)
  · rfl

theorem stripAnsi_cons_some {c : Char} {rest r : List Char}
    (h : matchAnsi (c :: rest) = some r) :
    stripAnsi (c :: rest) = stripAnsi r := by
  rw [stripAnsi]
  split
  · next r' heq =>
    rw [h] at heq
    injection heq with heq
    rw [heq]
  · next heq => rw [h] at heq; exact absurd heq (by simp)

theorem stripAnsi_id {s : List Char} (h : containsAnsi s = false) :
    stripAnsi s = s := by
  induction s with
  | nil => exact stripAnsi_nil
  | cons c rest ih =>
    obtain ⟨h1, h2⟩ := containsAnsi_false_head h
    rw [stripAnsi_cons_none h1, ih h2]

theorem stripAnsi_append_reset {s : List Char}
    (h : containsAnsi s = false) :
    stripAnsi (s ++ escChar :: '[' :: '0' :: 'm' :: []) = s := by
  induction s with
  | nil =>
    have hm : matchAnsi (escChar :: '[' :: '0' :: 'm' :: []) =
        some [] := by rfl
    rw [List.nil_append, stripAnsi_cons_some hm]
    exact stripAnsi_nil
  | cons c rest ih =>
    obtain ⟨h1, h2⟩ := containsAnsi_false_head h
    have hm : matchAnsi ((c :: rest) ++
        escChar :: '[' :: '0' :: 'm' :: []) = none :=
      matchAnsi_append_esc _ (by simp) h1
    rw [List.cons_append] at hm
    rw [List.cons_append, stripAnsi_cons_none hm, ih h2]

theorem stripAnsi_bold_head (t : List Char) :
    stripAnsi (escChar :: '[' :: '1' :: 'm' :: t) = stripAnsi t := by
  have hm : matchAnsi (escChar :: '[' :: '1' :: 'm' :: t) = some t := by
    rfl
  exact stripAnsi_cons_some hm

/-- C10.  For every string containing no match of the ANSI pattern of
`strip_ansi`, stripping the bold rendering of the string gives the
string back, in every environment: when colors are supported `bold`
wraps the text in escape codes that `strip_ansi` removes, and when they
are not `bold` returns the text unchanged. -/
theorem c10_strip_bold (env : Env) (s : String)
    (h : containsAnsi s.data = false) :
    strip_ansi (bold env s) = s := by
  unfold strip_ansi bold boldChars colorize
  by_cases hc : supports_color env = true
  · rw [if_pos hc]
    apply string_data_eq
    have hlist : escChar :: '[' :: ('1' :: []) ++ 'm' :: s.data ++
        (escChar :: '[' :: '0' :: 'm' :: []) =
        escChar :: '[' :: '1' :: 'm' ::
          (s.data ++ escChar :: '[' :: '0' :: 'm' :: []) := by
      simp
    show stripAnsi (escChar :: '[' :: ('1' :: []) ++ 'm' :: s.data ++
      (escChar :: '[' :: '0' :: 'm' :: [])) = s.data
    rw [hlist, stripAnsi_bold_head, stripAnsi_append_reset h]
  · rw [Bool.not_eq_true] at hc
    rw [hc]
    simp only [Bool.false_eq_true, if_false]
    apply string_data_eq
    show stripAnsi s.data = s.data
    exact stripAnsi_id h

/-- Closed witness for C10: the plain string `hello`, in a
color-supporting environment and a non-color environment. -/
theorem c10_strip_bold_witness :
    containsAnsi ("hello" : String).data = false ∧
    strip_ansi (bold ⟨false, true, false⟩ "hello") = "hello" ∧
    strip_ansi (bold ⟨true, false, true⟩ "hello") = "hello" :=
  ⟨by decide, c10_strip_bold ⟨false, true, false⟩ "hello" (by decide),
    c10_strip_bold ⟨true, false, true⟩ "hello" (by decide)⟩

/-- Closed witness for C1: two modules both declaring route `home`,
`m2` at version `2.0.0` beating `m1` at `1.9.9`. -/
theorem c1_version_precedence_witness :
    ∃ md dg,
      merge_module_metadata ⟨1, 0, 0⟩ ⟨1, 0, 0⟩
          (⟨"m1", "1.9.9", "1.0.0", [], .ok
              ⟨⟨"home", "Home1", "main"⟩ :: [], [], [], [], []⟩⟩ ::
            ⟨"m2", "2.0.0", "1.0.0", [], .ok
              ⟨⟨"home", "Home2", "main"⟩ :: [], [], [], [], []⟩⟩ :: []) =
        .ok (md, dg) ∧
      ("home", "m2", (⟨"home", "Home2", "main"⟩ : RouteDecl)) ∈
        md.route_selections ∧
      ∃ a ∈ admittedList ⟨1, 0, 0⟩ ⟨1, 0, 0⟩
          (⟨"m1", "1.9.9", "1.0.0", [], .ok
              ⟨⟨"home", "Home1", "main"⟩ :: [], [], [], [], []⟩⟩ ::
            ⟨"m2", "2.0.0", "1.0.0", [], .ok
              ⟨⟨"home", "Home2", "main"⟩ :: [], [], [], [], []⟩⟩ :: []),
        a.module_id = "m2" ∧
        a.contrib.routes.find? (fun r => decide (r.id = "home")) =
          some ⟨"home", "Home2", "main"⟩ ∧
        ∀ b ∈ admittedList ⟨1, 0, 0⟩ ⟨1, 0, 0⟩
            (⟨"m1", "1.9.9", "1.0.0", [], .ok
                ⟨⟨"home", "Home1", "main"⟩ :: [], [], [], [], []⟩⟩ ::
              ⟨"m2", "2.0.0", "1.0.0", [], .ok
                ⟨⟨"home", "Home2", "main"⟩ :: [], [], [], [], []⟩⟩ :: []),
          ∀ rd2 : RouteDecl,
          b.contrib.routes.find? (fun r => decide (r.id = "home")) =
            some rd2 →
          verLt a.ver b.ver = false ∧
            (b.ver = a.ver →
              ltChars b.module_id.data ("m2" : String).data = false) :=
  ⟨_, _, merge_ok_of_nodup (by decide), by decide,
    c1_version_precedence ⟨1, 0, 0⟩ ⟨1, 0, 0⟩
      (⟨"m1", "1.9.9", "1.0.0", [], .ok
          ⟨⟨"home", "Home1", "main"⟩ :: [], [], [], [], []⟩⟩ ::
        ⟨"m2", "2.0.0", "1.0.0", [], .ok
          ⟨⟨"home", "Home2", "main"⟩ :: [], [], [], [], []⟩⟩ :: [])
      _ _ "home" "m2" ⟨"home", "Home2", "main"⟩
      (merge_ok_of_nodup (by decide)) (by decide)⟩

/-- Closed witness for C2: a two-module input and its swap. -/
theorem c2_order_independence_witness :
    ((merge_module_metadata ⟨1, 0, 0⟩ ⟨1, 0, 0⟩
        (⟨"m1", "1.9.9", "1.0.0", [], .ok
            ⟨⟨"home", "Home1", "main"⟩ :: [], [], [], [], []⟩⟩ ::
          ⟨"m2", "2.0.0", "1.0.0", [], .ok
            ⟨⟨"home", "Home2", "main"⟩ :: [], [], [], [], []⟩⟩ :: []) =
        .error .duplicateModuleId) ↔
      (merge_module_metadata ⟨1, 0, 0⟩ ⟨1, 0, 0⟩
        (⟨"m2", "2.0.0", "1.0.0", [], .ok
            ⟨⟨"home", "Home2", "main"⟩ :: [], [], [], [], []⟩⟩ ::
          ⟨"m1", "1.9.9", "1.0.0", [], .ok
            ⟨⟨"home", "Home1", "main"⟩ :: [], [], [], [], []⟩⟩ :: []) =
        .error .duplicateModuleId)) ∧
    (admittedList ⟨1, 0, 0⟩ ⟨1, 0, 0⟩
        (⟨"m1", "1.9.9", "1.0.0", [], .ok
            ⟨⟨"home", "Home1", "main"⟩ :: [], [], [], [], []⟩⟩ ::
          ⟨"m2", "2.0.0", "1.0.0", [], .ok
            ⟨⟨"home", "Home2", "main"⟩ :: [], [], [], [], []⟩⟩ :: [])).Perm
      (admittedList ⟨1, 0, 0⟩ ⟨1, 0, 0⟩
        (⟨"m2", "2.0.0", "1.0.0", [], .ok
            ⟨⟨"home", "Home2", "main"⟩ :: [], [], [], [], []⟩⟩ ::
          ⟨"m1", "1.9.9", "1.0.0", [], .ok
            ⟨⟨"home", "Home1", "main"⟩ :: [], [], [], [], []⟩⟩ :: [])) ∧
    (rejectedList ⟨1, 0, 0⟩ ⟨1, 0, 0⟩
        (⟨"m1", "1.9.9", "1.0.0", [], .ok
            ⟨⟨"home", "Home1", "main"⟩ :: [], [], [], [], []⟩⟩ ::
          ⟨"m2", "2.0.0", "1.0.0", [], .ok
            ⟨⟨"home", "Home2", "main"⟩ :: [], [], [], [], []⟩⟩ :: [])).Perm
      (rejectedList ⟨1, 0, 0⟩ ⟨1, 0, 0⟩
        (⟨"m2", "2.0.0", "1.0.0", [], .ok
            ⟨⟨"home", "Home2", "main"⟩ :: [], [], [], [], []⟩⟩ ::
          ⟨"m1", "1.9.9", "1.0.0", [], .ok
            ⟨⟨"home", "Home1", "main"⟩ :: [], [], [], [], []⟩⟩ :: [])) ∧
    ∀ md dg md2 dg2,
      merge_module_metadata ⟨1, 0, 0⟩ ⟨1, 0, 0⟩
        (⟨"m1", "1.9.9", "1.0.0", [], .ok
            ⟨⟨"home", "Home1", "main"⟩ :: [], [], [], [], []⟩⟩ ::
          ⟨"m2", "2.0.0", "1.0.0", [], .ok
            ⟨⟨"home", "Home2", "main"⟩ :: [], [], [], [], []⟩⟩ :: []) =
        .ok (md, dg) →
      merge_module_metadata ⟨1, 0, 0⟩ ⟨1, 0, 0⟩
        (⟨"m2", "2.0.0", "1.0.0", [], .ok
            ⟨⟨"home", "Home2", "main"⟩ :: [], [], [], [], []⟩⟩ ::
          ⟨"m1", "1.9.9", "1.0.0", [], .ok
            ⟨⟨"home", "Home1", "main"⟩ :: [], [], [], [], []⟩⟩ :: []) =
        .ok (md2, dg2) →
      md.route_selections = md2.route_selections ∧
      md.commands = md2.commands ∧
      md.reducers = md2.reducers ∧
      md.initial_state = md2.initial_state :=
  c2_order_independence ⟨1, 0, 0⟩ ⟨1, 0, 0⟩
    (⟨"m1", "1.9.9", "1.0.0", [], .ok
        ⟨⟨"home", "Home1", "main"⟩ :: [], [], [], [], []⟩⟩ ::
      ⟨"m2", "2.0.0", "1.0.0", [], .ok
        ⟨⟨"home", "Home2", "main"⟩ :: [], [], [], [], []⟩⟩ :: [])
    (⟨"m2", "2.0.0", "1.0.0", [], .ok
        ⟨⟨"home", "Home2", "main"⟩ :: [], [], [], [], []⟩⟩ ::
      ⟨"m1", "1.9.9", "1.0.0", [], .ok
        ⟨⟨"home", "Home1", "main"⟩ :: [], [], [], [], []⟩⟩ :: [])
    (by decide)

/-- Closed witness for C3: a two-module merge whose route selections
carry exactly the two distinct contributed route ids. -/
theorem c3_route_selections_exact_witness :
    ((mergeCore (admittedList ⟨1, 0, 0⟩ ⟨1, 0, 0⟩
        (⟨"m1", "1.0.0", "1.0.0", [], .ok
            ⟨⟨"home", "Home", "main"⟩ :: [], [], [], [], []⟩⟩ ::
          ⟨"m2", "1.0.0", "1.0.0", [], .ok
            ⟨⟨"help", "Help", "main"⟩ :: [], [], [], [], []⟩⟩ ::
          []))).route_selections.map (fun e => e.1)).Nodup ∧
    ∀ k, (∃ e ∈ (mergeCore (admittedList ⟨1, 0, 0⟩ ⟨1, 0, 0⟩
        (⟨"m1", "1.0.0", "1.0.0", [], .ok
            ⟨⟨"home", "Home", "main"⟩ :: [], [], [], [], []⟩⟩ ::
          ⟨"m2", "1.0.0", "1.0.0", [], .ok
            ⟨⟨"help", "Help", "main"⟩ :: [], [], [], [], []⟩⟩ ::
          []))).route_selections, e.1 = k) ↔
      ∃ a ∈ admittedList ⟨1, 0, 0⟩ ⟨1, 0, 0⟩
          (⟨"m1", "1.0.0", "1.0.0", [], .ok
              ⟨⟨"home", "Home", "main"⟩ :: [], [], [], [], []⟩⟩ ::
            ⟨"m2", "1.0.0", "1.0.0", [], .ok
              ⟨⟨"help", "Help", "main"⟩ :: [], [], [], [], []⟩⟩ ::
            []),
        ∃ r ∈ a.contrib.routes, r.id = k :=
  c3_route_selections_exact ⟨1, 0, 0⟩ ⟨1, 0, 0⟩
    (⟨"m1", "1.0.0", "1.0.0", [], .ok
        ⟨⟨"home", "Home", "main"⟩ :: [], [], [], [], []⟩⟩ ::
      ⟨"m2", "1.0.0", "1.0.0", [], .ok
        ⟨⟨"help", "Help", "main"⟩ :: [], [], [], [], []⟩⟩ :: []) _ _
    (merge_ok_of_nodup (by decide))

end ShoeString
